import Mathlib

/-!
# Verification of the BridgeGAD-03 drawing generator

Shallow embedding of the parametric bridge-drawing generator
(`enhanced_bridge_cad_app.py`, plus the coordinate mapper of
`enhanced_bridge_app.py`) over exact rationals, together with proofs of the
specification claims about it.

Embedding conventions:
* Python floats become `ℚ`; Python `int` becomes `ℤ`.
* Python float division raises `ZeroDivisionError` on a zero divisor.
  Divisions whose divisor is a positive numeral, or is structurally bounded
  away from zero (`max k e` with `k > 0`, possibly plus/minus a smaller
  numeral, or `min (max 1 e) 30`), can never raise and are embedded as total
  division on `ℚ`.  Every other division is guarded: `pdiv` produces the
  quotient, `checkDiv` guards in-loop divisions by a loop-invariant divisor
  (the surrounding loops are never empty, so Python would raise exactly when
  the divisor is zero).
* `matplotlib` drawing calls are recorded as `Prim` values carrying the
  geometry and the style attributes (facecolor / color, alpha, linewidth)
  appearing literally in the source; axis bookkeeping that draws nothing is
  recorded in `AxisSetup`.
* `ezdxf` modelspace calls are recorded as `DxfEnt` values.
* `np.sin (np.pi * t)` and `np.cos (np.pi * t)` (used only by the arch
  generator) are transcendental; they are passed in as oracle functions
  `sinPi cosPi : ℚ → ℚ` applied to the ratio `t`.
-/

namespace BridgeGAD

/-- Python `int(q)`: truncation toward zero. -/
def pyInt (q : ℚ) : ℤ :=
if 0 ≤ q then ⌊q⌋ else -⌊-q⌋

/-- Python `range(n)` over an `int` bound (empty for `n ≤ 0`). -/
def pyRange (n : ℤ) : List ℤ :=
(List.range n.toNat).map Int.ofNat

/-- Python `range(a, b)` (step 1). -/
def pyRange2 (a b : ℤ) : List ℤ :=
(List.range (b - a).toNat).map (fun k => a + Int.ofNat k)

/-- Python `range(a, b, step)` for a positive step. -/
def pyRangeStep (a b step : ℤ) : List ℤ :=
if 0 < step then
  (List.range (((b - a) + step - 1) / step).toNat).map (fun k => a + Int.ofNat k * step)
else []

/-- `np.linspace a b n`: `n` evenly spaced samples from `a` to `b` inclusive. -/
def linspace (a b : ℚ) (n : ℕ) : List ℚ :=
if n = 1 then [a]
else (List.range n).map (fun i => a + (b - a) * (i : ℚ) / ((n : ℚ) - 1))

/-- Guarded division: Python `a / b` raises `ZeroDivisionError` when `b = 0`. -/
def pdiv (a b : ℚ) : Except String ℚ :=
if b = 0 then Except.error "ZeroDivisionError: float division by zero"
else Except.ok (a / b)

/-- Guard for an in-loop division by the loop-invariant divisor `d`. -/
def checkDiv (d : ℚ) : Except String Unit :=
if d = 0 then Except.error "ZeroDivisionError: float division by zero"
else Except.ok ()

/-- `true` exactly on `Except.ok`. -/
def isOkB {α : Type} : Except String α → Bool
| Except.ok _ => true
| Except.error _ => false

/-- A recorded `matplotlib` drawing primitive.
`rect x y w h facecolor alpha` is `Rectangle((x, y), w, h, facecolor=…, alpha=…)`;
`plot pts color lw alpha` is `ax.plot` of the polyline `pts`;
`fill xs y1s y2s mask facecolor` is `ax.fill_between(xs, y1s, y2s, where=mask, …)`. -/
inductive Prim : Type where
| rect (x y w h : ℚ) (facecolor : String) (alpha : ℚ)
| plot (pts : List (ℚ × ℚ)) (color : String) (lw alpha : ℚ)
| fill (xs y1s y2s : List ℚ) (mask : List Bool) (facecolor : String) (alpha : ℚ)
deriving DecidableEq

/-- A recorded `ezdxf` modelspace entity.
Text content strings (Python `f`-string formatting) are omitted; position,
height and layer are kept. -/
inductive DxfEnt : Type where
| line (x1 y1 x2 y2 : ℚ) (layer : String)
| lwpolyline (pts : List (ℚ × ℚ)) (layer : String)
| text (x y height : ℚ) (layer : String)
deriving DecidableEq

/-- `BridgeType` enumeration (`enhanced_bridge_cad_app.py`). -/
inductive BridgeType : Type where
| beam
| truss
| arch
| suspension
| cable_stayed
| t_beam
| slab
deriving DecidableEq

/-- `OutputFormat` enumeration. -/
inductive OutputFormat : Type where
| svg
| png
| pdf
| dxf
| all
deriving DecidableEq

/-- `BridgeParameters` dataclass fields. -/
structure BridgeParameters : Type where
span_length : ℚ
deck_width : ℚ
height : ℚ
supports : ℤ
load_capacity : ℚ
material : String
approach_length : ℚ := 50
foundation_depth : ℚ := 5
girder_depth : ℚ := 2
rail_height : ℚ := 6/5
deriving DecidableEq

/-- The `__post_init__` invariant of `BridgeParameters`. -/
def BridgeParameters.valid (p : BridgeParameters) : Prop :=
0 < p.span_length ∧ 0 < p.deck_width ∧ 0 < p.height

instance (p : BridgeParameters) : Decidable p.valid := by
unfold BridgeParameters.valid
infer_instance

/-- Constructing a `BridgeParameters` runs `__post_init__`, which raises
`ValueError` on a non-positive span, width or height (in that order). -/
def mkBridgeParameters (span_length deck_width height : ℚ) (supports : ℤ)
    (load_capacity : ℚ) (material : String)
    (approach_length : ℚ := 50) (foundation_depth : ℚ := 5)
    (girder_depth : ℚ := 2) (rail_height : ℚ := 6/5) :
    Except String BridgeParameters :=
if span_length ≤ 0 then Except.error "Span length must be positive"
else if deck_width ≤ 0 then Except.error "Deck width must be positive"
else if height ≤ 0 then Except.error "Height must be positive"
else Except.ok
  { span_length := span_length, deck_width := deck_width, height := height,
    supports := supports, load_capacity := load_capacity, material := material,
    approach_length := approach_length, foundation_depth := foundation_depth,
    girder_depth := girder_depth, rail_height := rail_height }

/-- `EnhancedBridgeDrawer.hpos` (`enhanced_bridge_app.py`):
`return left + (chainage - left) * scale`. -/
def hpos (chainage left scale : ℚ) : ℚ :=
left + (chainage - left) * scale

/-- `EnhancedBridgeDrawer.vpos` (`enhanced_bridge_app.py`):
`return datum + (level - datum) * scale`. -/
def vpos (level datum scale : ℚ) : ℚ :=
datum + (level - datum) * scale

/-- `num_spans = min(max(1, supports + 1), 30)`, shared by several
generators. -/
def numSpans (supports : ℤ) : ℤ :=
min (max 1 (supports + 1)) 30

/-- Style-based rectangle filter: facecolor and alpha as in the source. -/
def rectWithStyle (fc : String) (al : ℚ) : Prim → Bool
| Prim.rect _ _ _ _ fc2 al2 => fc2 = fc && al2 = al
| _ => false

/-- Style-and-width rectangle filter (used where alpha alone does not
separate element kinds). -/
def rectWithStyleW (fc : String) (al w : ℚ) : Prim → Bool
| Prim.rect _ _ w2 _ fc2 al2 => fc2 = fc && al2 = al && w2 = w
| _ => false

/-- Polyline filter by color and linewidth. -/
def plotWithStyle (c : String) (lw : ℚ) : Prim → Bool
| Prim.plot _ c2 lw2 _ => c2 = c && lw2 = lw
| _ => false

/-- `draw_beam_bridge_elevation`. -/
def draw_beam_bridge_elevation (p : BridgeParameters) : Except String (List Prim) :=
let deck_y := p.height - p.girder_depth
let deck := Prim.rect 0 deck_y p.span_length p.girder_depth "deck" (7/10)
let girder_height := p.girder_depth * (8/10)
let girder_y := deck_y - girder_height
let girders := (List.range 2).map (fun _ =>
  Prim.rect 0 girder_y p.span_length (girder_height * (3/10)) "structure" (8/10))
let support_width : ℚ := 2
let supportPart : Except String (List Prim) :=
  if 0 < p.supports then
    (pdiv p.span_length ((p.supports : ℚ) + 1)).map (fun support_spacing =>
      (pyRange p.supports).flatMap (fun (i : ℤ) =>
        let x_pos := support_spacing * ((i : ℚ) + 1) - support_width / 2
        let foundation_width := support_width * 2
        [Prim.rect x_pos (-p.foundation_depth) support_width
           (p.height - p.girder_depth + p.foundation_depth) "supports" (8/10),
         Prim.rect (x_pos - support_width / 2) (-p.foundation_depth) foundation_width
           (p.foundation_depth * (6/10)) "foundations" (8/10)]))
  else Except.ok []
supportPart.map (fun supportPrims =>
  let abutment_width : ℚ := 3
  let abutments := ([0, p.span_length] : List ℚ).map (fun x_pos =>
    Prim.rect (x_pos - abutment_width / 2) (-p.foundation_depth) abutment_width
      (p.height - p.girder_depth + p.foundation_depth) "supports" (6/10))
  let rail := Prim.plot [(0, p.height), (p.span_length, p.height)] "structure" (3/2) 1
  [deck] ++ girders ++ supportPrims ++ abutments ++ [rail])

/-- `draw_beam_bridge_plan`. -/
def draw_beam_bridge_plan (p : BridgeParameters) : Except String (List Prim) :=
let deck_plan := Prim.rect 0 0 p.span_length p.deck_width "plan_deck" (7/10)
let girder_width : ℚ := 6/10
let girders := ([p.deck_width * (2/10), p.deck_width * (8/10)] : List ℚ).map (fun y_pos =>
  Prim.rect 0 (y_pos - girder_width / 2) p.span_length girder_width "plan_structure" (9/10))
let num_cross_beams := max 5 (pyInt (p.span_length / 15))
-- divisor `num_cross_beams - 1 ≥ 4`: total division per the convention above
let cross_beam_spacing := p.span_length / ((num_cross_beams : ℚ) - 1)
let cross_beam_width : ℚ := 3/10
let crossBeams := (pyRange num_cross_beams).map (fun (i : ℤ) =>
  let x_pos := (i : ℚ) * cross_beam_spacing
  Prim.rect (x_pos - cross_beam_width / 2) 0 cross_beam_width p.deck_width
    "plan_structure" (6/10))
let support_width : ℚ := 2
let support_depth : ℚ := 3/2
let supportPart : Except String (List Prim) :=
  if 0 < p.supports then
    (pdiv p.span_length ((p.supports : ℚ) + 1)).map (fun support_spacing =>
      (pyRange p.supports).map (fun (i : ℤ) =>
        let x_pos := support_spacing * ((i : ℚ) + 1) - support_width / 2
        let y_pos := (p.deck_width - support_depth) / 2
        Prim.rect x_pos y_pos support_width support_depth "supports" (8/10)))
  else Except.ok []
supportPart.map (fun supportPrims =>
  let centerline := Prim.plot [(0, p.deck_width / 2), (p.span_length, p.deck_width / 2)]
    "annotations" 1 (7/10)
  let edge1 := Prim.plot [(0, 0), (p.span_length, 0)] "structure" 2 1
  let edge2 := Prim.plot [(0, p.deck_width), (p.span_length, p.deck_width)] "structure" 2 1
  [deck_plan] ++ girders ++ crossBeams ++ supportPrims ++ [centerline, edge1, edge2])

/-- Truss elevation: `span_length = self.params.span_length / num_spans`
(divisor in `[1, 30]`: total division per the convention above). -/
def trussSubSpanLength (p : BridgeParameters) : ℚ :=
p.span_length / (numSpans p.supports : ℚ)

/-- Truss elevation: `num_panels = max(4, int(span_length / 10))`. -/
def trussNumPanels (p : BridgeParameters) : ℤ :=
max 4 (pyInt (trussSubSpanLength p / 10))

/-- Truss elevation: `panel_width = span_length / num_panels` (divisor `≥ 4`:
total division). -/
def trussPanelWidth (p : BridgeParameters) : ℚ :=
trussSubSpanLength p / (trussNumPanels p : ℚ)

/-- Truss elevation: `deck_y = self.params.height * 0.3`. -/
def trussDeckY (p : BridgeParameters) : ℚ :=
p.height * (3/10)

/-- Truss elevation: `top_y = deck_y + truss_height` with
`truss_height = height - deck_y - 1`. -/
def trussTopY (p : BridgeParameters) : ℚ :=
trussDeckY p + (p.height - trussDeckY p - 1)

/-- The one diagonal of panel `i` in sub-span `k` of the truss elevation:
`x = span_start + i * panel_width`, `x_next = span_start + (i+1) * panel_width`;
an even `i` gives the ascending diagonal `(x, deck_y) — (x_next, top_y)`, an
odd `i` the descending one `(x, top_y) — (x_next, deck_y)`. -/
def trussDiagonal (p : BridgeParameters) (k i : ℕ) : Prim :=
let x := (k : ℚ) * trussSubSpanLength p + (i : ℚ) * trussPanelWidth p
let x_next := (k : ℚ) * trussSubSpanLength p + ((i : ℚ) + 1) * trussPanelWidth p
if i % 2 = 0 then
  Prim.plot [(x, trussDeckY p), (x_next, trussTopY p)] "structure" (8/5) 1
else
  Prim.plot [(x, trussTopY p), (x_next, trussDeckY p)] "structure" (8/5) 1

/-- `draw_truss_bridge_elevation`.  `deck_y`, `truss_height`, `num_panels` and
`panel_width` are loop-invariant in the source and are hoisted out of the
per-span loop (into the named definitions above). -/
def draw_truss_bridge_elevation (p : BridgeParameters) : List Prim :=
let num_spans := numSpans p.supports
let span_length := trussSubSpanLength p
let deck_y := trussDeckY p
let num_panels := trussNumPanels p
let panel_width := trussPanelWidth p
let top_y := trussTopY p
let spansPart := (List.range num_spans.toNat).flatMap (fun span_idx =>
  let span_start := (span_idx : ℚ) * span_length
  let span_end := ((span_idx : ℚ) + 1) * span_length
  [Prim.rect span_start deck_y span_length (1/2) "deck" (7/10),
   Prim.plot [(span_start, top_y), (span_end, top_y)] "structure" 3 1,
   Prim.plot [(span_start, deck_y), (span_end, deck_y)] "structure" 3 1]
  ++ (List.range (num_panels.toNat + 1)).flatMap (fun i =>
    let x := span_start + (i : ℚ) * panel_width
    [Prim.plot [(x, deck_y), (x, top_y)] "structure" 2 1]
    ++ (if i < num_panels.toNat then [trussDiagonal p span_idx i] else [])))
let support_width : ℚ := 5/2
let supportsPart := (List.range (num_spans.toNat + 1)).map (fun i =>
  let x_pos := (i : ℚ) * span_length
  Prim.rect (x_pos - support_width / 2) (-p.foundation_depth) support_width
    (deck_y + p.foundation_depth) "supports" (8/10))
spansPart ++ supportsPart

/-- `draw_truss_bridge_plan`. -/
def draw_truss_bridge_plan (p : BridgeParameters) : List Prim :=
let deck_plan := Prim.rect 0 0 p.span_length p.deck_width "plan_deck" (7/10)
let truss_width : ℚ := 1
let trussPositions : List ℚ := [p.deck_width * (15/100), p.deck_width * (85/100)]
let trusses := trussPositions.map (fun y_pos =>
  Prim.rect 0 (y_pos - truss_width / 2) p.span_length truss_width "plan_structure" (9/10))
let num_cross_frames := max 8 (pyInt (p.span_length / 10))
-- divisor `num_cross_frames - 1 ≥ 7`: total division
let cross_frame_spacing := p.span_length / ((num_cross_frames : ℚ) - 1)
let crossFrames := (pyRange num_cross_frames).map (fun (i : ℤ) =>
  let x_pos := (i : ℚ) * cross_frame_spacing
  Prim.plot [(x_pos, p.deck_width * (15/100)), (x_pos, p.deck_width * (85/100))]
    "structure" (3/2) (8/10))
let num_spans := numSpans p.supports
let span_length := p.span_length / (num_spans : ℚ)
let support_width : ℚ := 5/2
let supportsPart := (List.range (num_spans.toNat + 1)).map (fun i =>
  let x_pos := (i : ℚ) * span_length
  Prim.rect (x_pos - support_width / 2) ((p.deck_width - support_width) / 2)
    support_width support_width "supports" (8/10))
[deck_plan] ++ trusses ++ crossFrames ++ supportsPart

/-- `draw_arch_bridge_elevation`.  `theta = np.linspace(0, np.pi, 100)` is
represented by its ratios `i / 99` fed to the `sinPi`/`cosPi` oracles; the
source also computes an `inner_x` list that it never uses.  The in-loop
division by the loop-invariant `span_length` (inside `np.sin(np.pi * … /
span_length)`) is guarded once by `checkDiv` (the spandrel loop is never
empty). -/
def draw_arch_bridge_elevation (sinPi cosPi : ℚ → ℚ) (p : BridgeParameters) :
    Except String (List Prim) :=
let num_spans := numSpans p.supports
let span_length := p.span_length / (num_spans : ℚ)
(checkDiv span_length).map (fun _ =>
  let arch_center_y : ℚ := 0
  let arch_rise := p.height * (7/10)
  let arch_thickness : ℚ := 2
  let num_spandrels := max 3 (pyInt (span_length / 20))
  -- divisor `num_spandrels + 1 ≥ 4`: total division
  let spandrel_spacing := span_length / ((num_spandrels : ℚ) + 1)
  let spansPart := (List.range num_spans.toNat).flatMap (fun span_idx =>
    let span_start := (span_idx : ℚ) * span_length
    let thetaRatios := (List.range 100).map (fun i => (i : ℚ) / 99)
    let arch_x := thetaRatios.map (fun t => span_length / 2 * cosPi t + span_start + span_length / 2)
    let arch_y := thetaRatios.map (fun t => arch_rise * sinPi t + arch_center_y)
    let inner_y := thetaRatios.map (fun t => (arch_rise - arch_thickness) * sinPi t + arch_center_y)
    let mask := (List.zip inner_y arch_y).map (fun q => decide (q.1 ≤ q.2))
    [Prim.fill arch_x arch_y inner_y mask "structure" (8/10)]
    ++ (pyRange2 1 (num_spandrels + 1)).map (fun (i : ℤ) =>
      let x_pos := span_start + (i : ℚ) * spandrel_spacing
      let arch_height_at_x := arch_rise * sinPi ((x_pos - span_start) / span_length)
      Prim.rect (x_pos - 3/10) arch_height_at_x (6/10) ((arch_rise + 2) - arch_height_at_x)
        "supports" (6/10)))
  let deck_y := arch_rise + 2
  let deck := Prim.rect 0 deck_y p.span_length (8/10) "deck" (7/10)
  let abutment_width : ℚ := 4
  let abutment_height := arch_rise + 5
  let abutments := ([0, p.span_length] : List ℚ).map (fun x_pos =>
    Prim.rect (x_pos - abutment_width / 2) (-p.foundation_depth) abutment_width
      (abutment_height + p.foundation_depth) "supports" (8/10))
  let piers := (pyRange2 1 num_spans).map (fun (i : ℤ) =>
    let x_pos := (i : ℚ) * span_length
    Prim.rect (x_pos - abutment_width / 3) (-p.foundation_depth) (abutment_width * 2 / 3)
      (abutment_height + p.foundation_depth) "supports" (8/10))
  spansPart ++ [deck] ++ abutments ++ piers)

/-- `draw_arch_bridge_plan`. -/
def draw_arch_bridge_plan (p : BridgeParameters) : List Prim :=
let deck_plan := Prim.rect 0 0 p.span_length p.deck_width "plan_deck" (7/10)
let num_ribs : ℕ := 3
let rib_width : ℚ := 1
-- divisor `num_ribs + 1 = 4` (numeral): total division
let rib_spacing := p.deck_width / ((num_ribs : ℚ) + 1)
let ribs := (List.range num_ribs).map (fun i =>
  let y_pos := ((i : ℚ) + 1) * rib_spacing - rib_width / 2
  Prim.rect 0 y_pos p.span_length rib_width "plan_structure" (9/10))
let num_spans := numSpans p.supports
let span_length := p.span_length / (num_spans : ℚ)
let num_spandrels := max 3 (pyInt (span_length / 20))
let spandrel_spacing := span_length / ((num_spandrels : ℚ) + 1)
let spandrels := (List.range num_spans.toNat).flatMap (fun span_idx =>
  let span_start := (span_idx : ℚ) * span_length
  (pyRange2 1 (num_spandrels + 1)).map (fun (i : ℤ) =>
    let x_pos := span_start + (i : ℚ) * spandrel_spacing
    Prim.rect (x_pos - 3/10) 0 (6/10) p.deck_width "plan_structure" (4/10)))
let support_width : ℚ := 4
let abutments := ([0, p.span_length] : List ℚ).map (fun x_pos =>
  Prim.rect (x_pos - support_width / 2) ((p.deck_width - support_width) / 2)
    support_width support_width "supports" (8/10))
let piers := (pyRange2 1 num_spans).map (fun (i : ℤ) =>
  let x_pos := (i : ℚ) * span_length
  Prim.rect (x_pos - support_width / 3) ((p.deck_width - support_width * 2 / 3) / 2)
    (support_width * 2 / 3) (support_width * 2 / 3) "supports" (8/10))
[deck_plan] ++ ribs ++ spandrels ++ abutments ++ piers

/-- The points of the main-span suspension cable:
`x` over `np.linspace(t0, t1, 100)` with
`y = deck_y + cable_sag * (1 - 4 (x - span/2)^2 / (t1 - t0)^2)`. -/
def suspMainCablePts (p : BridgeParameters) : List (ℚ × ℚ) :=
let t0 := p.span_length * (2/10)
let t1 := p.span_length * (8/10)
let cable_sag := p.height * (3/10)
let deck_y := p.height * (4/10)
(linspace t0 t1 100).map (fun x =>
  (x, deck_y + cable_sag * (1 - 4 * (x - p.span_length / 2) ^ 2 / (t1 - t0) ^ 2)))

/-- `draw_suspension_bridge_elevation`.  The in-loop divisions by the
loop-invariant divisors `(t1 - t0)^2`, `t0` and `t1 - span` are each guarded
once by `checkDiv`, in the order Python would first reach them (the sampled
curves are never empty). -/
def draw_suspension_bridge_elevation (p : BridgeParameters) : Except String (List Prim) :=
let tower_height := p.height
let tower_width : ℚ := 3
let t0 := p.span_length * (2/10)
let t1 := p.span_length * (8/10)
let towersPart := ([t0, t1] : List ℚ).flatMap (fun x_pos =>
  [Prim.rect (x_pos - tower_width / 2) (-p.foundation_depth) tower_width
     (tower_height + p.foundation_depth) "supports" (8/10),
   Prim.rect (x_pos - tower_width) (tower_height - 2) (tower_width * 2) 1 "structure" (9/10)])
let cable_sag := p.height * (3/10)
let deck_y := p.height * (4/10)
((checkDiv ((t1 - t0) ^ 2)).bind (fun _ =>
 (checkDiv t0).bind (fun _ =>
 (checkDiv (t1 - p.span_length)).map (fun _ =>
  let mainCable := Prim.plot (suspMainCablePts p) "black" 3 1
  let leftCable := Prim.plot
    ((linspace 0 t0 50).map (fun x =>
      (x, tower_height - (tower_height - deck_y) * (x / t0) ^ 2))) "black" 3 1
  let rightCable := Prim.plot
    ((linspace t1 p.span_length 50).map (fun x =>
      (x, tower_height - (tower_height - deck_y) *
            ((x - p.span_length) / (t1 - p.span_length)) ^ 2))) "black" 3 1
  let deck := Prim.rect 0 deck_y p.span_length (8/10) "deck" (7/10)
  let num_hangers : ℤ := 20
  let hanger_spacing := p.span_length / 20
  let hangers := (pyRange2 1 num_hangers).flatMap (fun (i : ℤ) =>
    let x_hanger := (i : ℚ) * hanger_spacing
    if t0 ≤ x_hanger ∧ x_hanger ≤ t1 then
      let y_cable_at_x := deck_y + cable_sag *
        (1 - 4 * (x_hanger - p.span_length / 2) ^ 2 / (t1 - t0) ^ 2)
      [Prim.plot [(x_hanger, deck_y + 8/10), (x_hanger, y_cable_at_x)] "gray" 1 (8/10)]
    else [])
  let anchorage_width : ℚ := 6
  let anchorages := ([0, p.span_length] : List ℚ).map (fun x_pos =>
    Prim.rect (x_pos - anchorage_width / 2) (-p.foundation_depth) anchorage_width
      (deck_y + p.foundation_depth) "foundations" (8/10))
  towersPart ++ [mainCable, leftCable, rightCable, deck] ++ hangers ++ anchorages))))

/-- `draw_suspension_bridge_plan`. -/
def draw_suspension_bridge_plan (p : BridgeParameters) : List Prim :=
let deck_plan := Prim.rect 0 0 p.span_length p.deck_width "plan_deck" (7/10)
let cable_width : ℚ := 1/2
let cables := ([p.deck_width * (1/10), p.deck_width * (9/10)] : List ℚ).map (fun y_pos =>
  Prim.rect 0 (y_pos - cable_width / 2) p.span_length cable_width "black" (9/10))
let tower_width : ℚ := 3
let tower_depth : ℚ := 2
let towers := ([p.span_length * (2/10), p.span_length * (8/10)] : List ℚ).map (fun x_pos =>
  Prim.rect (x_pos - tower_width / 2) ((p.deck_width - tower_depth) / 2) tower_width
    tower_depth "supports" (8/10))
let truss_width : ℚ := 8/10
let trusses := ([p.deck_width * (25/100), p.deck_width * (75/100)] : List ℚ).map (fun y_pos =>
  Prim.rect 0 (y_pos - truss_width / 2) p.span_length truss_width "plan_structure" (6/10))
let anchorage_width : ℚ := 6
let anchorages := ([0, p.span_length] : List ℚ).map (fun x_pos =>
  Prim.rect (x_pos - anchorage_width / 2) ((p.deck_width - anchorage_width) / 2)
    anchorage_width anchorage_width "foundations" (8/10))
[deck_plan] ++ cables ++ towers ++ trusses ++ anchorages

/-- Cable-stayed: `span_length = self.params.span_length / num_spans`
(divisor in `[1, 30]`: total division). -/
def csSubSpanLength (p : BridgeParameters) : ℚ :=
p.span_length / (numSpans p.supports : ℚ)

/-- Cable-stayed: the tower positions `(i + 1) * span_length` for
`i in range(supports)`. -/
def csTowerPositions (p : BridgeParameters) : List ℚ :=
(pyRange p.supports).map (fun (i : ℤ) => ((i : ℚ) + 1) * csSubSpanLength p)

/-- Cable-stayed: `num_cables = max(4, int(span_length / 15))`. -/
def csNumCables (p : BridgeParameters) : ℤ :=
max 4 (pyInt (csSubSpanLength p / 15))

/-- Cable-stayed: the left-side cable deck abscissa
`deck_x_left = tower_x - (i * min(tower_x, span_length) / (num_cables + 1))`
(divisor `num_cables + 1 ≥ 5`: total division). -/
def csDeckXLeft (p : BridgeParameters) (tower_x : ℚ) (i : ℤ) : ℚ :=
tower_x - ((i : ℚ) * min tower_x (csSubSpanLength p) / ((csNumCables p : ℚ) + 1))

/-- Cable-stayed: the right-side cable deck abscissa
`deck_x_right = tower_x + (i * min(span - tower_x, span_length) / (num_cables + 1))`. -/
def csDeckXRight (p : BridgeParameters) (tower_x : ℚ) (i : ℤ) : ℚ :=
tower_x + ((i : ℚ) * min (p.span_length - tower_x) (csSubSpanLength p) / ((csNumCables p : ℚ) + 1))

/-- `draw_cable_stayed_bridge_elevation`.  The in-loop division by
`num_cables + 1 ≥ 5` is total per the convention above, so this generator is
pure. -/
def draw_cable_stayed_bridge_elevation (p : BridgeParameters) : List Prim :=
let tower_positions := csTowerPositions p
let tower_height := p.height
let tower_width : ℚ := 4
let towers := tower_positions.map (fun tower_x =>
  Prim.rect (tower_x - tower_width / 2) (-p.foundation_depth) tower_width
    (tower_height + p.foundation_depth) "supports" (8/10))
let deck_y := p.height * (3/10)
let deck := Prim.rect 0 deck_y p.span_length (8/10) "deck" (7/10)
let num_cables := csNumCables p
let cable_attachment_height := tower_height * (8/10)
let cables := tower_positions.flatMap (fun tower_x =>
  (pyRange2 1 (num_cables + 1)).flatMap (fun (i : ℤ) =>
    (if 0 < tower_x then
       if 0 ≤ csDeckXLeft p tower_x i then
         [Prim.plot [(tower_x, cable_attachment_height), (csDeckXLeft p tower_x i, deck_y + 8/10)]
            "red" 2 (8/10)]
       else []
     else [])
    ++ (if tower_x < p.span_length then
          if csDeckXRight p tower_x i ≤ p.span_length then
            [Prim.plot [(tower_x, cable_attachment_height), (csDeckXRight p tower_x i, deck_y + 8/10)]
               "red" 2 (8/10)]
          else []
        else [])))
let abutment_width : ℚ := 5
let abutments := ([0, p.span_length] : List ℚ).map (fun x_pos =>
  Prim.rect (x_pos - abutment_width / 2) (-p.foundation_depth) abutment_width
    (deck_y + p.foundation_depth) "supports" (8/10))
towers ++ [deck] ++ cables ++ abutments

/-- `draw_cable_stayed_bridge_plan`. -/
def draw_cable_stayed_bridge_plan (p : BridgeParameters) : List Prim :=
let deck_plan := Prim.rect 0 0 p.span_length p.deck_width "plan_deck" (7/10)
let num_spans := numSpans p.supports
let span_length := p.span_length / (num_spans : ℚ)
let tower_width : ℚ := 4
let tower_depth : ℚ := 3
let tower_positions := (pyRange p.supports).map (fun (i : ℤ) => ((i : ℚ) + 1) * span_length)
let towers := tower_positions.map (fun tower_x =>
  Prim.rect (tower_x - tower_width / 2) ((p.deck_width - tower_depth) / 2) tower_width
    tower_depth "supports" (8/10))
let cable_positions : List ℚ := [p.deck_width * (15/100), p.deck_width * (85/100)]
let num_cables := max 4 (pyInt (span_length / 15))
let cables := tower_positions.flatMap (fun tower_x =>
  cable_positions.flatMap (fun y_cable =>
    (pyRange2 1 (num_cables + 1)).flatMap (fun (i : ℤ) =>
      (if 0 < tower_x then
         let deck_x_left := tower_x - ((i : ℚ) * min tower_x span_length / ((num_cables : ℚ) + 1))
         if 0 ≤ deck_x_left then
           [Prim.plot [(tower_x, p.deck_width / 2), (deck_x_left, y_cable)] "red" 1 (6/10)]
         else []
       else [])
      ++ (if tower_x < p.span_length then
            let deck_x_right := tower_x +
              ((i : ℚ) * min (p.span_length - tower_x) span_length / ((num_cables : ℚ) + 1))
            if deck_x_right ≤ p.span_length then
              [Prim.plot [(tower_x, p.deck_width / 2), (deck_x_right, y_cable)] "red" 1 (6/10)]
            else []
          else []))))
let girder_width : ℚ := 8/10
let girders := ([p.deck_width * (2/10), p.deck_width * (8/10)] : List ℚ).map (fun y_pos =>
  Prim.rect 0 (y_pos - girder_width / 2) p.span_length girder_width "plan_structure" (6/10))
let abutment_width : ℚ := 5
let abutments := ([0, p.span_length] : List ℚ).map (fun x_pos =>
  Prim.rect (x_pos - abutment_width / 2) ((p.deck_width - abutment_width) / 2)
    abutment_width abutment_width "supports" (8/10))
[deck_plan] ++ towers ++ cables ++ girders ++ abutments

/-- `draw_t_beam_bridge_elevation`.  The source computes `num_beams` without
using it in this view.  The division `span_length / beam_spacing` has the
parameter-dependent divisor `beam_spacing = span / 20`, guarded by
`checkDiv`. -/
def draw_t_beam_bridge_elevation (p : BridgeParameters) : Except String (List Prim) :=
let num_spans := numSpans p.supports
let span_length := p.span_length / (num_spans : ℚ)
let deck_y := p.height - p.girder_depth
let deck_thickness : ℚ := 6/10
let deck := Prim.rect 0 deck_y p.span_length deck_thickness "deck" (7/10)
let girder_height := p.girder_depth - deck_thickness
let girder_y := deck_y - girder_height
let _num_beams := max 3 (pyInt (p.deck_width / 3))
let beam_spacing := p.span_length / 20
(checkDiv beam_spacing).map (fun _ =>
  let beams := (pyRange2 0 (pyInt (p.span_length / beam_spacing) + 1)).flatMap (fun (i : ℤ) =>
    let x_pos := (i : ℚ) * beam_spacing
    if x_pos ≤ p.span_length then
      let web_width : ℚ := 4/10
      let flange_width : ℚ := 12/10
      let flange_height : ℚ := 3/10
      [Prim.rect (x_pos - web_width / 2) girder_y web_width girder_height "structure" (8/10),
       Prim.rect (x_pos - flange_width / 2) (girder_y - flange_height) flange_width
         flange_height "structure" (8/10)]
    else [])
  let piersPart :=
    if 1 < num_spans then
      (pyRange2 1 num_spans).map (fun (i : ℤ) =>
        let support_width : ℚ := 2
        let x_pos := (i : ℚ) * span_length - support_width / 2
        Prim.rect x_pos (-p.foundation_depth) support_width
          (p.height - p.girder_depth + p.foundation_depth) "supports" (8/10))
    else []
  let abutment_width : ℚ := 3
  let abutments := ([0, p.span_length] : List ℚ).map (fun x_pos =>
    Prim.rect (x_pos - abutment_width / 2) (-p.foundation_depth) abutment_width
      (p.height - p.girder_depth + p.foundation_depth) "supports" (6/10))
  [deck] ++ beams ++ piersPart ++ abutments)

/-- `draw_t_beam_bridge_plan`. -/
def draw_t_beam_bridge_plan (p : BridgeParameters) : List Prim :=
let deck_plan := Prim.rect 0 0 p.span_length p.deck_width "plan_deck" (7/10)
let num_beams := max 3 (pyInt (p.deck_width / 3))
-- divisor `num_beams + 1 ≥ 4`: total division
let beam_spacing := p.deck_width / ((num_beams : ℚ) + 1)
let beam_width : ℚ := 4/10
let beams := (pyRange num_beams).map (fun (i : ℤ) =>
  let y_pos := ((i : ℚ) + 1) * beam_spacing - beam_width / 2
  Prim.rect 0 y_pos p.span_length beam_width "plan_structure" (9/10))
let num_diaphragms := max 5 (pyInt (p.span_length / 20))
-- divisor `num_diaphragms - 1 ≥ 4`: total division
let diaphragm_spacing := p.span_length / ((num_diaphragms : ℚ) - 1)
let diaphragm_width : ℚ := 3/10
let diaphragms := (pyRange num_diaphragms).map (fun (i : ℤ) =>
  let x_pos := (i : ℚ) * diaphragm_spacing
  Prim.rect (x_pos - diaphragm_width / 2) 0 diaphragm_width p.deck_width
    "plan_structure" (6/10))
let num_spans := numSpans p.supports
let span_length := p.span_length / (num_spans : ℚ)
let support_width : ℚ := 2
let supportsPart := (pyRange2 1 num_spans).map (fun (i : ℤ) =>
  let x_pos := (i : ℚ) * span_length
  Prim.rect (x_pos - support_width / 2) ((p.deck_width - support_width) / 2)
    support_width support_width "supports" (8/10))
let abutment_width : ℚ := 3
let abutments := ([0, p.span_length] : List ℚ).map (fun x_pos =>
  Prim.rect (x_pos - abutment_width / 2) ((p.deck_width - abutment_width) / 2)
    abutment_width abutment_width "supports" (6/10))
[deck_plan] ++ beams ++ diaphragms ++ supportsPart ++ abutments

/-- `draw_slab_bridge_elevation`. -/
def draw_slab_bridge_elevation (p : BridgeParameters) : List Prim :=
let num_spans := numSpans p.supports
let span_length := p.span_length / (num_spans : ℚ)
let slab_thickness := max (8/10) (p.span_length / 100)
let deck_y := p.height - slab_thickness
let slab := Prim.rect 0 deck_y p.span_length slab_thickness "deck" (8/10)
let rebar_spacing : ℚ := 2
let rebar := (pyRangeStep 0 (pyInt p.span_length) 2).flatMap (fun (x : ℤ) =>
  [Prim.plot [((x : ℚ), deck_y + 1/10), ((x : ℚ) + rebar_spacing, deck_y + 1/10)]
     "darkred" 2 (7/10),
   Prim.plot [((x : ℚ) + rebar_spacing / 2, deck_y + 1/10),
              ((x : ℚ) + rebar_spacing / 2, deck_y + slab_thickness - 1/10)]
     "darkred" 1 (5/10)])
let piersPart :=
  if 1 < num_spans then
    (pyRange2 1 num_spans).map (fun (i : ℤ) =>
      let support_width : ℚ := 5/2
      let x_pos := (i : ℚ) * span_length - support_width / 2
      Prim.rect x_pos (-p.foundation_depth) support_width (deck_y + p.foundation_depth)
        "supports" (8/10))
  else []
let abutment_width : ℚ := 4
let abutments := ([0, p.span_length] : List ℚ).map (fun x_pos =>
  Prim.rect (x_pos - abutment_width / 2) (-p.foundation_depth) abutment_width
    (deck_y + p.foundation_depth) "supports" (8/10))
let joints :=
  if 1 < num_spans then
    (pyRange2 1 num_spans).map (fun (i : ℤ) =>
      let x_pos := (i : ℚ) * span_length
      Prim.rect (x_pos - 5/100) deck_y (1/10) slab_thickness "white" 1)
  else []
[slab] ++ rebar ++ piersPart ++ abutments ++ joints

/-- `draw_slab_bridge_plan`.  The construction-joint divisor
`num_joints + 1 ≥ 2` holds only under the `span > 30` guard, so that division
keeps its `pdiv`. -/
def draw_slab_bridge_plan (p : BridgeParameters) : Except String (List Prim) :=
let slab_plan := Prim.rect 0 0 p.span_length p.deck_width "plan_deck" (8/10)
let longitudinal := (pyRangeStep 0 (pyInt p.deck_width) 2).flatMap (fun (y : ℤ) =>
  if (y : ℚ) ≤ p.deck_width then
    [Prim.plot [(0, (y : ℚ)), (p.span_length, (y : ℚ))] "darkred" (8/10) (6/10)]
  else [])
let transverse := (pyRangeStep 0 (pyInt p.span_length) 3).flatMap (fun (x : ℤ) =>
  if (x : ℚ) ≤ p.span_length then
    [Prim.plot [((x : ℚ), 0), ((x : ℚ), p.deck_width)] "darkred" (8/10) (6/10)]
  else [])
let jointsPart : Except String (List Prim) :=
  if 30 < p.span_length then
    let num_joints := pyInt (p.span_length / 30)
    (pdiv p.span_length ((num_joints : ℚ) + 1)).map (fun joint_spacing =>
      (pyRange2 1 (num_joints + 1)).map (fun (i : ℤ) =>
        let x_pos := (i : ℚ) * joint_spacing
        Prim.plot [(x_pos, 0), (x_pos, p.deck_width)] "annotations" 2 (8/10)))
  else Except.ok []
jointsPart.map (fun joints =>
  let num_spans := numSpans p.supports
  let span_length := p.span_length / (num_spans : ℚ)
  let support_width : ℚ := 5/2
  let supportsPart := (pyRange2 1 num_spans).map (fun (i : ℤ) =>
    let x_pos := (i : ℚ) * span_length
    Prim.rect (x_pos - support_width / 2) ((p.deck_width - support_width) / 2)
      support_width support_width "supports" (8/10))
  let abutment_width : ℚ := 4
  let abutments := ([0, p.span_length] : List ℚ).map (fun x_pos =>
    Prim.rect (x_pos - abutment_width / 2) ((p.deck_width - abutment_width) / 2)
      abutment_width abutment_width "supports" (8/10))
  let edgeMarks := (pyRangeStep 0 (pyInt p.span_length) 10).flatMap (fun (x : ℤ) =>
    if (x : ℚ) ≤ p.span_length then
      [Prim.plot [((x : ℚ), p.deck_width), ((x : ℚ) + 2, p.deck_width)] "structure" 3 (8/10),
       Prim.plot [((x : ℚ), 0), ((x : ℚ) + 2, 0)] "structure" 3 (8/10)]
    else [])
  [slab_plan] ++ longitudinal ++ transverse ++ joints ++ supportsPart ++ abutments ++ edgeMarks)

/-- The axis bookkeeping of `setup_drawing` (draws no geometry). -/
structure AxisSetup : Type where
elev_xlim : ℚ × ℚ
elev_ylim : ℚ × ℚ
plan_xlim : ℚ × ℚ
plan_ylim : ℚ × ℚ
deriving DecidableEq

/-- `setup_drawing`. -/
def setup_drawing (p : BridgeParameters) : AxisSetup :=
let margin := max (p.span_length * (1/10)) 20
let plan_margin := max (p.deck_width * (2/10)) 5
{ elev_xlim := (-margin, p.span_length + margin),
  elev_ylim := (-p.foundation_depth - 10, p.height + margin),
  plan_xlim := (-margin, p.span_length + margin),
  plan_ylim := (-plan_margin, p.deck_width + plan_margin) }

/-- The `matplotlib` figure: axis setup plus the primitives drawn on the
elevation and plan axes. -/
structure Figure : Type where
axes : AxisSetup
elevation : List Prim
plan : List Prim
deriving DecidableEq

/-- `draw_beam_bridge`: elevation then plan. -/
def draw_beam_bridge (p : BridgeParameters) : Except String (List Prim × List Prim) :=
(draw_beam_bridge_elevation p).bind (fun e =>
  (draw_beam_bridge_plan p).map (fun pl => (e, pl)))

/-- `draw_truss_bridge`. -/
def draw_truss_bridge (p : BridgeParameters) : List Prim × List Prim :=
(draw_truss_bridge_elevation p, draw_truss_bridge_plan p)

/-- `draw_arch_bridge`. -/
def draw_arch_bridge (sinPi cosPi : ℚ → ℚ) (p : BridgeParameters) :
    Except String (List Prim × List Prim) :=
(draw_arch_bridge_elevation sinPi cosPi p).map (fun e => (e, draw_arch_bridge_plan p))

/-- `draw_suspension_bridge`. -/
def draw_suspension_bridge (p : BridgeParameters) : Except String (List Prim × List Prim) :=
(draw_suspension_bridge_elevation p).map (fun e => (e, draw_suspension_bridge_plan p))

/-- `draw_cable_stayed_bridge`. -/
def draw_cable_stayed_bridge (p : BridgeParameters) : List Prim × List Prim :=
(draw_cable_stayed_bridge_elevation p, draw_cable_stayed_bridge_plan p)

/-- `draw_t_beam_bridge`. -/
def draw_t_beam_bridge (p : BridgeParameters) : Except String (List Prim × List Prim) :=
(draw_t_beam_bridge_elevation p).map (fun e => (e, draw_t_beam_bridge_plan p))

/-- `draw_slab_bridge`. -/
def draw_slab_bridge (p : BridgeParameters) : Except String (List Prim × List Prim) :=
(draw_slab_bridge_plan p).map (fun pl => (draw_slab_bridge_elevation p, pl))

/-- `generate_drawing`: `setup_drawing`, then the `if`/`elif` dispatch over the
bridge type, with the source's final `else: raise ValueError(...)` branch. -/
def generate_drawing (sinPi cosPi : ℚ → ℚ) (bt : BridgeType) (p : BridgeParameters) :
    Except String Figure :=
let ax := setup_drawing p
let views : Except String (List Prim × List Prim) :=
  if bt = BridgeType.beam then draw_beam_bridge p
  else if bt = BridgeType.truss then Except.ok (draw_truss_bridge p)
  else if bt = BridgeType.arch then draw_arch_bridge sinPi cosPi p
  else if bt = BridgeType.suspension then draw_suspension_bridge p
  else if bt = BridgeType.cable_stayed then Except.ok (draw_cable_stayed_bridge p)
  else if bt = BridgeType.t_beam then draw_t_beam_bridge p
  else if bt = BridgeType.slab then draw_slab_bridge p
  else Except.error "Unsupported bridge type"
views.map (fun v => { axes := ax, elevation := v.1, plan := v.2 })

/-- A full request: construct the validated parameters, then generate. -/
def runDrawingRequest (sinPi cosPi : ℚ → ℚ) (bt : BridgeType)
    (span_length deck_width height : ℚ) (supports : ℤ) (load_capacity : ℚ)
    (material : String) : Except String Figure :=
(mkBridgeParameters span_length deck_width height supports load_capacity material).bind
  (generate_drawing sinPi cosPi bt)

/-- `_add_beam_bridge_to_dxf`. -/
def addBeamBridgeToDxf (p : BridgeParameters) (span height _width : ℚ) : List DxfEnt :=
let deck_thickness : ℚ := 1
let deck_y := height - deck_thickness
let deck := DxfEnt.lwpolyline
  [(0, deck_y), (span, deck_y), (span, height), (0, height), (0, deck_y)] "DECK"
let girder_depth := p.girder_depth
let num_girders : ℕ := 4
let girders := (List.range num_girders).flatMap (fun i =>
  let x := ((i : ℚ) + 1) * span / ((num_girders : ℚ) + 1)
  [DxfEnt.line x 0 x deck_y "STRUCTURE",
   DxfEnt.lwpolyline
     [(x - 3/10, deck_y - girder_depth), (x + 3/10, deck_y - girder_depth),
      (x + 3/10, deck_y), (x - 3/10, deck_y), (x - 3/10, deck_y - girder_depth)]
     "STRUCTURE"])
let rail_height := p.rail_height
let rails :=
  [DxfEnt.line 0 height 0 (height + rail_height) "RAILINGS",
   DxfEnt.line span height span (height + rail_height) "RAILINGS",
   DxfEnt.line 0 (height + rail_height) span (height + rail_height) "RAILINGS"]
[deck] ++ girders ++ rails

/-- `_add_truss_bridge_to_dxf`: fixed `num_panels = 8`, and BOTH diagonals in
every panel. -/
def addTrussBridgeToDxf (span height _width : ℚ) : List DxfEnt :=
let deck_y := height * (2/10)
let truss_top := height
let deck := DxfEnt.line 0 deck_y span deck_y "DECK"
let chords :=
  [DxfEnt.line 0 truss_top span truss_top "STRUCTURE",
   DxfEnt.line 0 deck_y span deck_y "STRUCTURE"]
let num_panels : ℕ := 8
let panel_length := span / (num_panels : ℚ)
let members := (List.range (num_panels + 1)).flatMap (fun i =>
  let x := (i : ℚ) * panel_length
  [DxfEnt.line x deck_y x truss_top "STRUCTURE"]
  ++ (if i < num_panels then
        let x_next := ((i : ℚ) + 1) * panel_length
        [DxfEnt.line x deck_y x_next truss_top "STRUCTURE",
         DxfEnt.line x truss_top x_next deck_y "STRUCTURE"]
      else []))
[deck] ++ chords ++ members

/-- `_add_arch_bridge_to_dxf`.  (The parabola divides by `span`; inside
`save_as_dxf` a zero span would surface through the catch-all exception
wrapper; the claims never evaluate this at `span = 0`, and the division is
embedded as total division on `ℚ`.) -/
def addArchBridgeToDxf (span height _width : ℚ) : List DxfEnt :=
let deck_y := height * (8/10)
let arch_rise := height * (6/10)
let deck := DxfEnt.line 0 deck_y span deck_y "DECK"
let num_segments : ℕ := 20
let arch_points := (List.range (num_segments + 1)).map (fun i =>
  let x := (i : ℚ) * span / (num_segments : ℚ)
  (x, arch_rise * (1 - (2 * x / span - 1) ^ 2)))
[deck, DxfEnt.lwpolyline arch_points "STRUCTURE"]

/-- `_add_suspension_bridge_to_dxf`: towers at `0.25 * span` and
`0.75 * span` (the source also sets a `tower_width` it never uses). -/
def addSuspensionBridgeToDxf (span height _width : ℚ) : List DxfEnt :=
let tower_height := height
let deck_y := height * (3/10)
let tower1_x := span * (25/100)
let tower2_x := span * (75/100)
let towers :=
  [DxfEnt.line tower1_x 0 tower1_x tower_height "STRUCTURE",
   DxfEnt.line tower2_x 0 tower2_x tower_height "STRUCTURE"]
let deck := DxfEnt.line 0 deck_y span deck_y "DECK"
let num_points : ℕ := 30
let cable_points := (List.range (num_points + 1)).map (fun i =>
  let x := (i : ℚ) * span / (num_points : ℚ)
  let y := if tower1_x ≤ x ∧ x ≤ tower2_x then
      deck_y + (1/10) * ((x - span / 2) / (span / 4)) ^ 2 * (tower_height - deck_y)
    else tower_height
  (x, y))
let cable := DxfEnt.lwpolyline cable_points "STRUCTURE"
let hangers := (List.range num_points).flatMap (fun i =>
  if i = 0 then [] else
  let x := (i : ℚ) * span / (num_points : ℚ)
  if tower1_x < x ∧ x < tower2_x then
    let cable_y := deck_y + (1/10) * ((x - span / 2) / (span / 4)) ^ 2 * (tower_height - deck_y)
    [DxfEnt.line x deck_y x cable_y "STRUCTURE"]
  else [])
towers ++ [deck, cable] ++ hangers

/-- `_add_cable_stayed_bridge_to_dxf`: a SINGLE tower at midspan with a fixed
`num_cables = 8` per side, independent of `supports`. -/
def addCableStayedBridgeToDxf (span height _width : ℚ) : List DxfEnt :=
let tower_x := span / 2
let tower_height := height
let deck_y := height * (2/10)
let tower := DxfEnt.line tower_x 0 tower_x tower_height "STRUCTURE"
let deck := DxfEnt.line 0 deck_y span deck_y "DECK"
let num_cables : ℕ := 8
let cables := (List.range num_cables).flatMap (fun k =>
  let i := (k : ℚ) + 1
  let x_left := i * tower_x / ((num_cables : ℚ) + 1)
  let cable_top_y := tower_height * (1 - i / ((num_cables : ℚ) + 2))
  let x_right := tower_x + i * tower_x / ((num_cables : ℚ) + 1)
  [DxfEnt.line x_left deck_y tower_x cable_top_y "STRUCTURE",
   DxfEnt.line x_right deck_y tower_x cable_top_y "STRUCTURE"])
[tower, deck] ++ cables

/-- `_add_dimensions_to_dxf`. -/
def addDimensionsToDxf (span height : ℚ) : List DxfEnt :=
let dim_y : ℚ := -5
let dim_x := span + 5
[DxfEnt.line 0 dim_y span dim_y "DIMENSIONS",
 DxfEnt.line 0 (dim_y - 1) 0 (dim_y + 1) "DIMENSIONS",
 DxfEnt.line span (dim_y - 1) span (dim_y + 1) "DIMENSIONS",
 DxfEnt.line dim_x 0 dim_x height "DIMENSIONS",
 DxfEnt.line (dim_x - 1) 0 (dim_x + 1) 0 "DIMENSIONS",
 DxfEnt.line (dim_x - 1) height (dim_x + 1) height "DIMENSIONS"]

/-- `_add_text_to_dxf`: a title and five specification lines (content strings
are Python `f`-string formatting, omitted; placement and height are kept). -/
def addTextToDxf (span : ℚ) : List DxfEnt :=
[DxfEnt.text (span / 2) (-15) 3 "TEXT"]
++ (List.range 5).map (fun i => DxfEnt.text 5 (-25 - (i : ℚ) * 3) (3/2) "TEXT")

/-- `_add_bridge_elements_to_dxf`: two abutment foundations, the per-type
branch (`t_beam` and `slab` have no branch), dimensions, text. -/
def addBridgeElementsToDxf (bt : BridgeType) (p : BridgeParameters) : List DxfEnt :=
let span := p.span_length
let height := p.height
let width := p.deck_width
let found_width : ℚ := 8
let found_height := p.foundation_depth
let foundations :=
  [DxfEnt.lwpolyline
     [(0, 0), (found_width, 0), (found_width, -found_height), (0, -found_height), (0, 0)]
     "FOUNDATION",
   DxfEnt.lwpolyline
     [(span - found_width, 0), (span, 0), (span, -found_height),
      (span - found_width, -found_height), (span - found_width, 0)]
     "FOUNDATION"]
let typed :=
  if bt = BridgeType.beam then addBeamBridgeToDxf p span height width
  else if bt = BridgeType.truss then addTrussBridgeToDxf span height width
  else if bt = BridgeType.arch then addArchBridgeToDxf span height width
  else if bt = BridgeType.suspension then addSuspensionBridgeToDxf span height width
  else if bt = BridgeType.cable_stayed then addCableStayedBridgeToDxf span height width
  else []
foundations ++ typed ++ addDimensionsToDxf span height ++ addTextToDxf span

/-- The DXF document: the fixed layer table plus the modelspace entities. -/
structure DxfDoc : Type where
layers : List (String × ℤ)
entities : List DxfEnt
deriving DecidableEq

/-- The document built by `save_as_dxf` before saving. -/
def buildDxfDoc (bt : BridgeType) (p : BridgeParameters) : DxfDoc :=
{ layers := [("FOUNDATION", 2), ("STRUCTURE", 1), ("DECK", 3),
             ("RAILINGS", 4), ("DIMENSIONS", 5), ("TEXT", 7)],
  entities := addBridgeElementsToDxf bt p }

/-- State of the output file on disk. -/
inductive FileState : Type where
| absent
| truncated
| complete
deriving DecidableEq

/-- `doc.saveas(filename)` — external `ezdxf` I/O.  Modelled from the spec:
the write may fail partway (I/O error), in which case it raises and leaves a
truncated, readable file on disk; `fault` injects such a failure with its
cause. -/
def ezdxfSaveas (_doc : DxfDoc) (fault : Option String) : FileState × Except String Unit :=
match fault with
| none => (FileState.complete, Except.ok ())
| some cause => (FileState.truncated, Except.error cause)

/-- `save_as_dxf`: build the document, `saveas`, and on any exception re-raise
`RuntimeError("Failed to create DXF file: " + str(e))`.  The `except` branch
performs no cleanup, so the file state produced by the failed `saveas` is
returned unchanged. -/
def save_as_dxf (bt : BridgeType) (p : BridgeParameters) (fault : Option String) :
    FileState × Except String Unit :=
let doc := buildDxfDoc bt p
match ezdxfSaveas doc fault with
| (fs, Except.ok ()) => (fs, Except.ok ())
| (fs, Except.error e) => (fs, Except.error ("Failed to create DXF file: " ++ e))

/-- The error message of `save_drawing`'s missing-figure branch. -/
def noFigureMsg : String := "No drawing generated. Call generate_drawing() first."

/-- The save branches of `save_drawing` once a figure exists: the list of
files written, and the overall outcome (a DXF `fault` propagates from
`save_as_dxf`). -/
def saveFigureOutputs (_fig : Figure) (bt : BridgeType) (p : BridgeParameters)
    (base : String) (format : OutputFormat) (fault : Option String) :
    List String × Except String Unit :=
let pngs := if format = OutputFormat.png ∨ format = OutputFormat.all then [base ++ ".png"] else []
let svgs := if format = OutputFormat.svg ∨ format = OutputFormat.all then [base ++ ".svg"] else []
let pdfs := if format = OutputFormat.pdf ∨ format = OutputFormat.all then [base ++ ".pdf"] else []
if format = OutputFormat.dxf ∨ format = OutputFormat.all then
  match save_as_dxf bt p fault with
  | (_, Except.ok ()) => (pngs ++ svgs ++ pdfs ++ [base ++ ".dxf"], Except.ok ())
  | (_, Except.error e) => (pngs ++ svgs ++ pdfs, Except.error e)
else (pngs ++ svgs ++ pdfs, Except.ok ())

/-- The generator object's state: `self.figure` starts as `None`. -/
structure GenState : Type where
bridge_type : BridgeType
params : BridgeParameters
figure : Option Figure
deriving DecidableEq

/-- `BridgeDrawingGenerator.__init__`. -/
def GenState.init (bt : BridgeType) (p : BridgeParameters) : GenState :=
{ bridge_type := bt, params := p, figure := none }

/-- A `generate_drawing()` call on the object: on success it stores the
figure in `self.figure` and returns it. -/
def runGenerateDrawing (sinPi cosPi : ℚ → ℚ) (st : GenState) :
    Except String (GenState × Figure) :=
(generate_drawing sinPi cosPi st.bridge_type st.params).map
  (fun f => ({ st with figure := some f }, f))

/-- `save_drawing`: `if not self.figure: raise ValueError(...)` (a
`matplotlib` figure object is always truthy, so the branch fires exactly when
`self.figure` is still `None`), writing nothing; otherwise run the per-format
saves. -/
def save_drawing (st : GenState) (base : String) (format : OutputFormat)
    (fault : Option String) : List String × Except String Unit :=
match st.figure with
| none => ([], Except.error noFigureMsg)
| some fig => saveFigureOutputs fig st.bridge_type st.params base format fault

deriving instance DecidableEq for Except

/-- The Beam concrete scenario of the spec:
`span=40, width=12, height=8, supports=1, load=50, material="concrete"`. -/
def beamExampleParams : BridgeParameters :=
{ span_length := 40, deck_width := 12, height := 8, supports := 1,
  load_capacity := 50, material := "concrete" }

/-- The Suspension concrete scenario of the spec: `span=200, height=80`. -/
def suspExampleParams : BridgeParameters :=
{ span_length := 200, deck_width := 12, height := 80, supports := 2,
  load_capacity := 50, material := "steel" }

/-- A diagonal DXF line: neither horizontal nor vertical. -/
def isDiagLine : DxfEnt → Bool
| DxfEnt.line x1 y1 x2 y2 _ => x1 ≠ x2 && y1 ≠ y2
| _ => false

/-- A vertical DXF line. -/
def isVerticalLine : DxfEnt → Bool
| DxfEnt.line x1 _ x2 _ _ => x1 = x2
| _ => false

/-- A cable-stayed scenario with more intermediate supports (31) than the
30-sub-span cap. -/
def csBigParams : BridgeParameters :=
{ span_length := 300, deck_width := 10, height := 10, supports := 31,
  load_capacity := 50, material := "steel" }

end BridgeGAD

namespace BridgeGAD

/-! ## Helper lemmas -/

theorem pdiv_ok {b : ℚ} (a : ℚ) (h : b ≠ 0) : pdiv a b = Except.ok (a / b) := by
unfold pdiv
simp [h]

theorem checkDiv_ok {d : ℚ} (h : d ≠ 0) : checkDiv d = Except.ok () := by
unfold checkDiv
simp [h]

theorem ok_bind {α β : Type} (a : α) (f : α → Except String β) :
    (Except.ok a : Except String α).bind f = f a := rfl

theorem ok_map {α β : Type} (f : α → β) (a : α) :
    (Except.ok a : Except String α).map f = Except.ok (f a) := rfl

theorem isOkB_ok {α : Type} (a : α) : isOkB (Except.ok a : Except String α) = true := rfl

theorem numSpans_pos (s : ℤ) : 1 ≤ numSpans s := by
unfold numSpans
rcases le_total (max 1 (s + 1)) 30 with h | h
· rw [min_eq_left h]
  exact le_max_left 1 (s + 1)
· rw [min_eq_right h]
  norm_num

theorem numSpansQ_ne (s : ℤ) : ((numSpans s : ℤ) : ℚ) ≠ 0 := by
have h := numSpans_pos s
have : (0 : ℚ) < ((numSpans s : ℤ) : ℚ) := by exact_mod_cast lt_of_lt_of_le Int.zero_lt_one h
exact ne_of_gt this

theorem filter_flatMap {α β : Type} (l : List α) (f : α → List β) (q : β → Bool) :
    (l.flatMap f).filter q = l.flatMap (fun a => (f a).filter q) := by
induction l with
| nil => rfl
| cons x xs ih => simp only [List.flatMap_cons, List.filter_append, ih]

theorem flatMap_congr_mem {α β : Type} {l : List α} {F G : α → List β}
    (h : ∀ a ∈ l, F a = G a) : l.flatMap F = l.flatMap G := by
induction l with
| nil => rfl
| cons x xs ih =>
    simp only [List.flatMap_cons, h x (List.mem_cons_self x xs),
      ih (fun a ha => h a (List.mem_cons_of_mem _ ha))]

theorem flatMap_range_succ_restrict {β : Type} (n : ℕ) (G : ℕ → List β) :
    (List.range (n + 1)).flatMap (fun i => if i < n then G i else [])
      = (List.range n).flatMap G := by
rw [List.range_succ, List.flatMap_append]
simp only [List.flatMap_cons, List.flatMap_nil, List.append_nil]
rw [if_neg (lt_irrefl n), List.append_nil]
exact flatMap_congr_mem (fun a ha => if_pos (List.mem_range.1 ha))

theorem filter_map_nil {α β : Type} (l : List α) (f : α → β) (q : β → Bool)
    (h : ∀ a ∈ l, q (f a) = false) : (l.map f).filter q = [] := by
induction l with
| nil => rfl
| cons x xs ih =>
    simp only [List.map_cons, List.filter_cons, h x (List.mem_cons_self x xs),
      Bool.false_eq_true, if_neg]
    exact ih (fun a ha => h a (List.mem_cons_of_mem _ ha))

theorem flatMap_pure {α β : Type} (l : List α) (g : α → β) :
    l.flatMap (fun a => [g a]) = l.map g := by
induction l with
| nil => rfl
| cons x xs ih => simp only [List.flatMap_cons, List.map_cons, ih, List.singleton_append]

theorem diag_kept (p : BridgeParameters) (k i : ℕ) :
    plotWithStyle "structure" (8/5) (trussDiagonal p k i) = true := by
unfold trussDiagonal
by_cases hp : i % 2 = 0 <;> simp [hp, plotWithStyle]

theorem filter_eq_nil_of_all {α : Type} {l : List α} {q : α → Bool}
    (h : ∀ a ∈ l, q a = false) : l.filter q = [] := by
induction l with
| nil => rfl
| cons x xs ih =>
    simp only [List.filter_cons, h x (List.mem_cons_self x xs), Bool.false_eq_true, if_neg]
    exact ih (fun a ha => h a (List.mem_cons_of_mem _ ha))

theorem filter_map_all {α β : Type} (l : List α) (f : α → β) (q : β → Bool)
    (h : ∀ a ∈ l, q (f a) = true) : (l.map f).filter q = l.map f := by
induction l with
| nil => rfl
| cons x xs ih =>
    simp only [List.map_cons, List.filter_cons, h x (List.mem_cons_self x xs), if_pos]
    rw [ih (fun a ha => h a (List.mem_cons_of_mem _ ha))]

theorem pyRange2_mem_bounds {a b i : ℤ} (h : i ∈ pyRange2 a b) : a ≤ i ∧ i < b := by
unfold pyRange2 at h
obtain ⟨k, hk, rfl⟩ := List.mem_map.1 h
have hkr := List.mem_range.1 hk
have hofnat : Int.ofNat k = (k : ℤ) := rfl
rw [hofnat]
omega

theorem numSpans_eq {s : ℤ} (h0 : 0 ≤ s) (h29 : s ≤ 29) : numSpans s = s + 1 := by
unfold numSpans
omega

theorem csSub_pos (p : BridgeParameters) (hsp : 0 < p.span_length) :
    0 < csSubSpanLength p := by
unfold csSubSpanLength
apply div_pos hsp
have h := numSpans_pos p.supports
exact_mod_cast lt_of_lt_of_le Int.zero_lt_one h

theorem csNumCables_ge (p : BridgeParameters) : 4 ≤ csNumCables p := le_max_left _ _

theorem csNcQ_pos (p : BridgeParameters) : (0 : ℚ) < (csNumCables p : ℚ) + 1 := by
have h := csNumCables_ge p
have h4 : (4 : ℚ) ≤ (csNumCables p : ℚ) := by exact_mod_cast h
linarith

theorem cs_frac_bounds (p : BridgeParameters) (i : ℤ) (h1 : 1 ≤ i)
    (hn : i ≤ csNumCables p) (m : ℚ) (hm : 0 ≤ m) :
    0 ≤ (i : ℚ) * m / ((csNumCables p : ℚ) + 1) ∧
    (i : ℚ) * m / ((csNumCables p : ℚ) + 1) ≤ m := by
have hpos := csNcQ_pos p
have hiq : (1 : ℚ) ≤ (i : ℚ) := by exact_mod_cast h1
have hnq : (i : ℚ) ≤ (csNumCables p : ℚ) := by exact_mod_cast hn
constructor
· exact div_nonneg (mul_nonneg (by linarith) hm) (le_of_lt hpos)
· rw [div_le_iff₀ hpos]
  nlinarith

theorem csTower_mem {p : BridgeParameters} {tx : ℚ} (h : tx ∈ csTowerPositions p) :
    ∃ j : ℤ, 0 ≤ j ∧ j < p.supports ∧ tx = ((j : ℚ) + 1) * csSubSpanLength p := by
unfold csTowerPositions at h
obtain ⟨iz, hiz, rfl⟩ := List.mem_map.1 h
unfold pyRange at hiz
obtain ⟨k, hk, rfl⟩ := List.mem_map.1 hiz
have hk2 := List.mem_range.1 hk
refine ⟨(k : ℤ), by positivity, ?_, rfl⟩
omega

theorem cs_bounds (p : BridgeParameters) (hv : p.valid) (h0 : 0 ≤ p.supports)
    (h29 : p.supports ≤ 29) (tower_x : ℚ) (htx : tower_x ∈ csTowerPositions p)
    (i : ℤ) (h1 : 1 ≤ i) (hn : i ≤ csNumCables p) :
    0 < tower_x ∧ tower_x < p.span_length ∧
    0 ≤ csDeckXLeft p tower_x i ∧ csDeckXLeft p tower_x i ≤ p.span_length ∧
    0 ≤ csDeckXRight p tower_x i ∧ csDeckXRight p tower_x i ≤ p.span_length := by
obtain ⟨hsp, -, -⟩ := hv
obtain ⟨j, hj0, hjs, rfl⟩ := csTower_mem htx
have hsub := csSub_pos p hsp
have hns : numSpans p.supports = p.supports + 1 := numSpans_eq h0 h29
have hjq : (0 : ℚ) ≤ (j : ℚ) := by exact_mod_cast hj0
have htx_pos : 0 < ((j : ℚ) + 1) * csSubSpanLength p :=
  mul_pos (by linarith) hsub
have hspan_eq : ((numSpans p.supports : ℤ) : ℚ) * csSubSpanLength p = p.span_length := by
  unfold csSubSpanLength
  rw [mul_comm, div_mul_cancel₀ _ (numSpansQ_ne p.supports)]
have hjlt : ((j : ℚ) + 1) < ((numSpans p.supports : ℤ) : ℚ) := by
  rw [hns]
  push_cast
  have : (j : ℚ) < (p.supports : ℚ) := by exact_mod_cast hjs
  linarith
have htx_lt : ((j : ℚ) + 1) * csSubSpanLength p < p.span_length := by
  rw [← hspan_eq]
  exact mul_lt_mul_of_pos_right hjlt hsub
set tx := ((j : ℚ) + 1) * csSubSpanLength p with htxdef
have hmL : (0 : ℚ) ≤ min tx (csSubSpanLength p) :=
  le_of_lt (lt_min htx_pos hsub)
have hmR : (0 : ℚ) ≤ min (p.span_length - tx) (csSubSpanLength p) :=
  le_of_lt (lt_min (by linarith) hsub)
obtain ⟨hfL0, hfLle⟩ := cs_frac_bounds p i h1 hn _ hmL
obtain ⟨hfR0, hfRle⟩ := cs_frac_bounds p i h1 hn _ hmR
have hminL : min tx (csSubSpanLength p) ≤ tx := min_le_left _ _
have hminR : min (p.span_length - tx) (csSubSpanLength p) ≤ p.span_length - tx :=
  min_le_left _ _
unfold csDeckXLeft csDeckXRight
refine ⟨htx_pos, htx_lt, by linarith, by linarith, by linarith, by linarith⟩

theorem draw_beam_bridge_elevation_ok (p : BridgeParameters) (hv : p.valid) :
    ∃ l, draw_beam_bridge_elevation p = Except.ok l := by
  simp only [draw_beam_bridge_elevation]
  by_cases hs : 0 < p.supports
  · have hne : ((p.supports : ℚ) + 1) ≠ 0 := by
      have h1 : (1 : ℚ) ≤ (p.supports : ℚ) := by exact_mod_cast hs
      linarith
    rw [if_pos hs, pdiv_ok _ hne]
    exact ⟨_, rfl⟩
  · rw [if_neg hs]
    exact ⟨_, rfl⟩

theorem draw_beam_bridge_plan_ok (p : BridgeParameters) (hv : p.valid) :
    ∃ l, draw_beam_bridge_plan p = Except.ok l := by
  simp only [draw_beam_bridge_plan]
  by_cases hs : 0 < p.supports
  · have hne : ((p.supports : ℚ) + 1) ≠ 0 := by
      have h1 : (1 : ℚ) ≤ (p.supports : ℚ) := by exact_mod_cast hs
      linarith
    rw [if_pos hs, pdiv_ok _ hne]
    exact ⟨_, rfl⟩
  · rw [if_neg hs]
    exact ⟨_, rfl⟩

theorem draw_suspension_bridge_elevation_ok (p : BridgeParameters) (hv : p.valid) :
    ∃ l, draw_suspension_bridge_elevation p = Except.ok l := by
  obtain ⟨hsp, -, -⟩ := hv
  simp only [draw_suspension_bridge_elevation]
  have h1 : (p.span_length * (8/10) - p.span_length * (2/10)) ^ 2 ≠ 0 := by
    have he : p.span_length * (8/10) - p.span_length * (2/10) = (3/5) * p.span_length := by
      ring
    rw [he]
    exact pow_ne_zero 2 (mul_ne_zero (by norm_num) (ne_of_gt hsp))
  have h2 : p.span_length * (2/10) ≠ 0 := mul_ne_zero (ne_of_gt hsp) (by norm_num)
  have h3 : p.span_length * (8/10) - p.span_length ≠ 0 := by
    intro hc
    nlinarith
  rw [checkDiv_ok h1, ok_bind, checkDiv_ok h2, ok_bind, checkDiv_ok h3]
  exact ⟨_, rfl⟩

theorem draw_arch_bridge_elevation_ok (sinPi cosPi : ℚ → ℚ) (p : BridgeParameters)
    (hv : p.valid) : ∃ l, draw_arch_bridge_elevation sinPi cosPi p = Except.ok l := by
  obtain ⟨hsp, -, -⟩ := hv
  simp only [draw_arch_bridge_elevation]
  have hne : p.span_length / ((numSpans p.supports : ℤ) : ℚ) ≠ 0 :=
    div_ne_zero (ne_of_gt hsp) (numSpansQ_ne p.supports)
  rw [checkDiv_ok hne]
  exact ⟨_, rfl⟩

theorem draw_t_beam_bridge_elevation_ok (p : BridgeParameters) (hv : p.valid) :
    ∃ l, draw_t_beam_bridge_elevation p = Except.ok l := by
  obtain ⟨hsp, -, -⟩ := hv
  simp only [draw_t_beam_bridge_elevation]
  have hne : p.span_length / 20 ≠ 0 := div_ne_zero (ne_of_gt hsp) (by norm_num)
  rw [checkDiv_ok hne]
  exact ⟨_, rfl⟩

theorem draw_slab_bridge_plan_ok (p : BridgeParameters) (hv : p.valid) :
    ∃ l, draw_slab_bridge_plan p = Except.ok l := by
  simp only [draw_slab_bridge_plan]
  by_cases hs : 30 < p.span_length
  · have hq : (1 : ℚ) ≤ p.span_length / 30 := by
      rw [le_div_iff₀ (by norm_num : (0 : ℚ) < 30)]
      linarith
    have h1 : 1 ≤ pyInt (p.span_length / 30) := by
      unfold pyInt
      rw [if_pos (by linarith)]
      exact Int.le_floor.2 (by exact_mod_cast hq)
    have hne : ((pyInt (p.span_length / 30) : ℚ) + 1) ≠ 0 := by
      have : (1 : ℚ) ≤ (pyInt (p.span_length / 30) : ℚ) := by exact_mod_cast h1
      linarith
    rw [if_pos hs, pdiv_ok _ hne]
    exact ⟨_, rfl⟩
  · rw [if_neg hs]
    exact ⟨_, rfl⟩

theorem generate_drawing_ok (sinPi cosPi : ℚ → ℚ) (bt : BridgeType)
    (p : BridgeParameters) (hv : p.valid) :
    ∃ fig, generate_drawing sinPi cosPi bt p = Except.ok fig := by
  cases bt
  case beam =>
    obtain ⟨e, he⟩ := draw_beam_bridge_elevation_ok p hv
    obtain ⟨pl, hpl⟩ := draw_beam_bridge_plan_ok p hv
    simp [generate_drawing, draw_beam_bridge, he, hpl, Except.bind, Except.map]
  case truss => simp [generate_drawing, Except.map]
  case arch =>
    obtain ⟨e, he⟩ := draw_arch_bridge_elevation_ok sinPi cosPi p hv
    simp [generate_drawing, draw_arch_bridge, he, Except.map]
  case suspension =>
    obtain ⟨e, he⟩ := draw_suspension_bridge_elevation_ok p hv
    simp [generate_drawing, draw_suspension_bridge, he, Except.map]
  case cable_stayed => simp [generate_drawing, Except.map]
  case t_beam =>
    obtain ⟨e, he⟩ := draw_t_beam_bridge_elevation_ok p hv
    simp [generate_drawing, draw_t_beam_bridge, he, Except.map]
  case slab =>
    obtain ⟨pl, hpl⟩ := draw_slab_bridge_plan_ok p hv
    simp [generate_drawing, draw_slab_bridge, hpl, Except.map]

/-! ## Claim theorems -/

/-- C1: constructing a `BridgeParameters` succeeds iff `span_length > 0`,
`deck_width > 0` and `height > 0`; in particular for `span = 0` the request
pipeline fails with the `InvalidParameter` error before any drawing is
generated, so no partially-built parameter set reaches a generator. -/
theorem mkBridgeParameters_validation :
    (∀ (s w h : ℚ) (sup : ℤ) (lc : ℚ) (m : String),
        isOkB (mkBridgeParameters s w h sup lc m) = true ↔ (0 < s ∧ 0 < w ∧ 0 < h)) ∧
    (∀ (sinPi cosPi : ℚ → ℚ) (bt : BridgeType) (w h : ℚ) (sup : ℤ) (lc : ℚ) (m : String),
        runDrawingRequest sinPi cosPi bt 0 w h sup lc m =
          Except.error "Span length must be positive") := by
constructor
· intro s w h sup lc m
  unfold mkBridgeParameters
  split_ifs with h1 h2 h3
  · simp only [isOkB]
    constructor
    · intro hc
      exact absurd hc Bool.false_ne_true
    · rintro ⟨hs, -, -⟩
      exact absurd hs (not_lt.mpr h1)
  · simp only [isOkB]
    constructor
    · intro hc
      exact absurd hc Bool.false_ne_true
    · rintro ⟨-, hw, -⟩
      exact absurd hw (not_lt.mpr h2)
  · simp only [isOkB]
    constructor
    · intro hc
      exact absurd hc Bool.false_ne_true
    · rintro ⟨-, -, hh⟩
      exact absurd hh (not_lt.mpr h3)
  · simp only [isOkB, true_iff]
    push_neg at h1 h2 h3
    exact ⟨h1, h2, h3⟩
· intro sinPi cosPi bt w h sup lc m
  unfold runDrawingRequest mkBridgeParameters
  rw [if_pos (le_refl (0 : ℚ))]
  rfl

/-- C2 counterexample: the coordinate mapper does NOT return
`(chainage - leftReference) * scale`: at `chainage = 3`, `left = 1`,
`scale = 2` it returns `5`, while the claimed formula gives `4` (and the
analogous failure for `vpos`). -/
theorem hpos_spec_formula_counterexample :
    hpos 3 1 2 = 5 ∧ ((3 : ℚ) - 1) * 2 = 4 ∧
    vpos 3 1 2 = 5 ∧ (5 : ℚ) ≠ 4 := by
refine ⟨by norm_num [hpos], by norm_num, by norm_num [vpos], by norm_num⟩

/-- C2 (amended): the mapper is the affine map anchored at the reference:
`toDrawingX(c, left, s) = left + (c - left) * s` and
`toDrawingY(l, datum, s) = datum + (l - datum) * s`; equivalently the scaled
offsets from the references are `(c - left) * s` and `(l - datum) * s`. -/
theorem hpos_vpos_offset_contract (c left s l datum : ℚ) :
    hpos c left s - left = (c - left) * s ∧
    vpos l datum s - datum = (l - datum) * s := by
unfold hpos vpos
constructor <;> ring

/-- C3 counterexample: the linearity equation
`toDrawingX(a+b,left,s) - toDrawingX(a,left,s) = toDrawingX(b+left,left,s)`
fails on the code at `a = 0`, `b = 0`, `left = 1`, `s = 1`: the left side is
`0` but the right side is `1`. -/
theorem hpos_linearity_counterexample :
    hpos (0 + 0) 1 1 - hpos 0 1 1 = 0 ∧ hpos (0 + 1) 1 1 = 1 ∧ (0 : ℚ) ≠ 1 := by
refine ⟨by norm_num [hpos], by norm_num [hpos], by norm_num⟩

/-- C3 (amended): for every `a`, `b` and fixed `left`, `s`, the mapper
satisfies the offset-corrected linearity equation
`toDrawingX(a+b,left,s) - toDrawingX(a,left,s) = toDrawingX(b+left,left,s) - left`. -/
theorem hpos_linearity_offset (a b left s : ℚ) :
    hpos (a + b) left s - hpos a left s = hpos (b + left) left s - left := by
unfold hpos
ring

/-- C4: for the Beam typology with `span=40, width=12, height=8, supports=1,
load=50, material="concrete"`, the elevation contains exactly 1 pier
rectangle (facecolor `supports`, alpha 0.8), exactly 2 abutment rectangles
(facecolor `supports`, alpha 0.6) and exactly one deck rectangle, which spans
`x` from `0` to `0 + 40`; the plan contains exactly one deck rectangle and it
is 40 by 12. -/
theorem beam_example_layout :
    (draw_beam_bridge_elevation beamExampleParams).map (fun l =>
        ((l.filter (rectWithStyle "supports" (8/10))).length,
         (l.filter (rectWithStyle "supports" (6/10))).length,
         l.filter (rectWithStyle "deck" (7/10))))
      = Except.ok (1, 2, [Prim.rect 0 6 40 2 "deck" (7/10)]) ∧
    (draw_beam_bridge_plan beamExampleParams).map (fun l =>
        l.filter (rectWithStyle "plan_deck" (7/10)))
      = Except.ok [Prim.rect 0 0 40 12 "plan_deck" (7/10)] := by
constructor
· norm_num +decide [draw_beam_bridge_elevation, beamExampleParams, pdiv, pyRange,
    rectWithStyle, Except.map, List.filter, List.flatMap]
· norm_num +decide [draw_beam_bridge_plan, beamExampleParams, pdiv, pyRange, pyInt,
    rectWithStyle, Except.map, List.filter, List.flatMap]

/-- C5 counterexample: the claim says the generator places the two suspension
towers at `0.2 * span` and `0.8 * span`, but the DXF serializer
(`_add_suspension_bridge_to_dxf`, one of the claim's sources) places its first
tower line at `x = 0.25 * span`: for `span = 200` that is `x = 50`, which is
neither `0.2 * 200 = 40` nor `0.8 * 200 = 160`. -/
theorem suspension_tower_positions_counterexample :
    (addSuspensionBridgeToDxf 200 80 12).get? 0
      = some (DxfEnt.line 50 0 50 80 "STRUCTURE") ∧
    ¬((50 : ℚ) = (2/10) * 200 ∨ (50 : ℚ) = (8/10) * 200) := by
constructor
· norm_num [addSuspensionBridgeToDxf, List.get?]
· norm_num

/-- C5 (amended): in the ELEVATION view (`draw_suspension_bridge_elevation`)
the generator places exactly two tower shafts, centered at `0.2 * span` and
`0.8 * span` — for `span = 200, height = 80` at `x = 40` and `x = 160`; the
sampled main-cable polyline stays below `56 - 24/9801` and attains that value
at the sample `x = 9840/99`, i.e. its maximum equals
`deckLevelY + 0.3 * 80 = 56` within `1/100`, attained within distance `1` of
midspan `x = 100` (midspan itself is not one of the 100 samples).  The DXF
serializer deviates: it places its two tower lines at `0.25 * span = 50` and
`0.75 * span = 150`. -/
theorem suspension_towers_and_cable :
    ((draw_suspension_bridge_elevation suspExampleParams).map (fun l =>
        l.filter (rectWithStyle "supports" (8/10)))
      = Except.ok
          [Prim.rect (40 - 3/2) (-5) 3 85 "supports" (8/10),
           Prim.rect (160 - 3/2) (-5) 3 85 "supports" (8/10)]) ∧
    ((draw_suspension_bridge_elevation suspExampleParams).map (fun l =>
        decide (Prim.plot (suspMainCablePts suspExampleParams) "black" 3 1 ∈ l))
      = Except.ok true) ∧
    ((suspMainCablePts suspExampleParams).all
        (fun q => decide (q.2 ≤ 56 - 24/9801)) = true) ∧
    ((9840/99 : ℚ), (56 - 24/9801 : ℚ)) ∈ suspMainCablePts suspExampleParams ∧
    |((4/10) * 80 + (3/10) * 80 : ℚ) - (56 - 24/9801)| < 1/100 ∧
    |(9840/99 : ℚ) - 100| < 1 ∧
    (addSuspensionBridgeToDxf 200 80 12).get? 0
      = some (DxfEnt.line ((25/100) * 200) 0 ((25/100) * 200) 80 "STRUCTURE") ∧
    (addSuspensionBridgeToDxf 200 80 12).get? 1
      = some (DxfEnt.line ((75/100) * 200) 0 ((75/100) * 200) 80 "STRUCTURE") := by
refine ⟨?_, ?_, ?_, ?_, ?_, ?_, ?_, ?_⟩
· norm_num +decide [draw_suspension_bridge_elevation, suspExampleParams, checkDiv,
    rectWithStyle, Except.map, Except.bind, List.filter, List.flatMap, pyRange2,
    apply_ite (List.filter (rectWithStyle "supports" (4/5))), ite_self]
· norm_num +decide [draw_suspension_bridge_elevation, suspExampleParams, checkDiv,
    Except.map, Except.bind, List.mem_append, List.mem_cons]
· rw [List.all_eq_true]
  intro q hq
  rw [decide_eq_true_eq]
  unfold suspMainCablePts linspace at hq
  norm_num [suspExampleParams, List.map_map] at hq
  obtain ⟨x, ⟨i, hi100, rfl⟩, hpair⟩ := hq
  subst hpair
  have hodd : (2 * (i : ℤ) - 99) ≠ 0 := by omega
  have h1 : (1 : ℤ) ≤ (2 * (i : ℤ) - 99) ^ 2 := by
    have habs := Int.one_le_abs hodd
    calc (1 : ℤ) = 1 ^ 2 := by norm_num
    _ ≤ |2 * (i : ℤ) - 99| ^ 2 := by exact pow_le_pow_left₀ (by norm_num) habs 2
    _ = (2 * (i : ℤ) - 99) ^ 2 := sq_abs _
  have h1q : (1 : ℚ) ≤ (2 * (i : ℚ) - 99) ^ 2 := by exact_mod_cast h1
  dsimp only
  nlinarith [h1q]
· unfold suspMainCablePts linspace
  norm_num [suspExampleParams, List.map_map]
  refine ⟨49, ⟨49, by norm_num, by norm_num⟩, ?_⟩
  norm_num
· rw [abs_lt]
  constructor <;> norm_num
· rw [abs_lt]
  constructor <;> norm_num
· norm_num [addSuspensionBridgeToDxf, List.get?]
· norm_num [addSuspensionBridgeToDxf, List.get?]

/-- C6 counterexample: the claim's panel rule applies to every panel the
generator draws, but the DXF serializer (`_add_truss_bridge_to_dxf`, one of
the claim's sources) always uses 8 panels and draws BOTH crossing diagonals
in each: for `span = 200` (so one sub-span of length 200, hence
`max(4, 200/10) = 20` claimed panels with one diagonal each) it emits 16
diagonal lines, and its first panel `[0, 25]` already contains two diagonals
of opposite direction. -/
theorem truss_dxf_panels_counterexample :
    ((addTrussBridgeToDxf 200 100 12).filter isDiagLine).length = 16 ∧
    ((addTrussBridgeToDxf 200 100 12).filter isDiagLine).take 2
      = [DxfEnt.line 0 20 25 100 "STRUCTURE", DxfEnt.line 0 100 25 20 "STRUCTURE"] ∧
    (max 4 (pyInt (((200 : ℚ) / ((min (max 1 ((0 : ℤ) + 1)) 30 : ℤ) : ℚ)) / 10))).toNat = 20 ∧
    (16 : ℕ) ≠ 20 := by
refine ⟨?_, ?_, ?_, by norm_num⟩
· norm_num +decide [addTrussBridgeToDxf, isDiagLine, List.filter, List.flatMap,
    List.range_succ]
· norm_num +decide [addTrussBridgeToDxf, isDiagLine, List.filter, List.flatMap,
    List.range_succ]
· norm_num [pyInt]
  rfl

/-- C6 (amended): in the ELEVATION view (`draw_truss_bridge_elevation`), for
every parameter set the diagonal members of the drawing are exactly one per
panel: the span is divided into `numSpans = min(max(1, supports+1), 30)`
sub-spans, each sub-span has `max(4, int(subSpanLength/10))` panels, and the
single diagonal of panel `i` ascends (deck level to top chord) for even `i`
and descends for odd `i`.  The DXF export deviates: it always uses 8 panels
and draws both crossing diagonals in every panel. -/
theorem truss_elevation_panels (p : BridgeParameters) :
    ((draw_truss_bridge_elevation p).filter (plotWithStyle "structure" (8/5))
      = (List.range (numSpans p.supports).toNat).flatMap (fun k =>
          (List.range (trussNumPanels p).toNat).map (trussDiagonal p k))) ∧
    numSpans p.supports = min (max 1 (p.supports + 1)) 30 ∧
    trussNumPanels p
      = max 4 (pyInt (p.span_length / ((min (max 1 (p.supports + 1)) 30 : ℤ) : ℚ) / 10)) ∧
    (∀ k i : ℕ, trussDiagonal p k i =
      if i % 2 = 0 then
        Prim.plot [((k : ℚ) * trussSubSpanLength p + (i : ℚ) * trussPanelWidth p, trussDeckY p),
                   ((k : ℚ) * trussSubSpanLength p + ((i : ℚ) + 1) * trussPanelWidth p, trussTopY p)]
          "structure" (8/5) 1
      else
        Prim.plot [((k : ℚ) * trussSubSpanLength p + (i : ℚ) * trussPanelWidth p, trussTopY p),
                   ((k : ℚ) * trussSubSpanLength p + ((i : ℚ) + 1) * trussPanelWidth p, trussDeckY p)]
          "structure" (8/5) 1) := by
refine ⟨?_, rfl, rfl, fun k i => rfl⟩
unfold draw_truss_bridge_elevation
rw [List.filter_append, filter_flatMap, filter_map_nil _ _ _ (fun a _ => rfl),
  List.append_nil]
refine flatMap_congr_mem (fun k hk => ?_)
rw [List.filter_append]
have h3 : ∀ a b c d e f g h,
    List.filter (plotWithStyle "structure" (8/5))
      [Prim.rect a b c d "deck" (7/10),
       Prim.plot [(e, f), (g, f)] "structure" 3 1,
       Prim.plot [(e, h), (g, h)] "structure" 3 1] = [] := by
  intro a b c d e f g h
  simp only [List.filter_cons, List.filter_nil, plotWithStyle, rectWithStyle]
  norm_num
rw [h3, List.nil_append, filter_flatMap]
have hstep : ∀ i ∈ List.range ((trussNumPanels p).toNat + 1),
    (List.filter (plotWithStyle "structure" (8/5))
      ([Prim.plot [((k : ℚ) * trussSubSpanLength p + (i : ℚ) * trussPanelWidth p, trussDeckY p),
                   ((k : ℚ) * trussSubSpanLength p + (i : ℚ) * trussPanelWidth p, trussTopY p)]
          "structure" 2 1]
       ++ (if i < (trussNumPanels p).toNat then [trussDiagonal p k i] else [])))
      = (fun i => if i < (trussNumPanels p).toNat then [trussDiagonal p k i] else []) i := by
  intro i hi
  rw [List.filter_append]
  have hv : List.filter (plotWithStyle "structure" (8/5))
      [Prim.plot [((k : ℚ) * trussSubSpanLength p + (i : ℚ) * trussPanelWidth p, trussDeckY p),
                  ((k : ℚ) * trussSubSpanLength p + (i : ℚ) * trussPanelWidth p, trussTopY p)]
         "structure" 2 1] = [] := by
    simp only [List.filter_cons, List.filter_nil, plotWithStyle]
    norm_num
  rw [hv, List.nil_append]
  by_cases hc : i < (trussNumPanels p).toNat
  · rw [if_pos hc]
    simp only [if_pos hc, List.filter_cons, List.filter_nil, diag_kept, if_pos]
  · rw [if_neg hc]
    simp only [if_neg hc, List.filter_nil]
rw [flatMap_congr_mem hstep, flatMap_range_succ_restrict, flatMap_pure]

/-- C7 counterexample: with `span = 300` and `supports = 31` the sub-span cap
(30) puts tower 31 at `x = 310`, beyond the span end; the drawn stay cable
from that tower reaches the deck at `x = 308 > 300 = spanLength`, violating
"every cable deck endpoint lies within `[0, spanLength]`".  Moreover the DXF
serializer (`_add_cable_stayed_bridge_to_dxf`, one of the claim's sources)
always draws exactly ONE tower (the single vertical line), not
`supportCount` towers. -/
theorem cable_stayed_counterexample :
    Prim.plot [(310, 8), (308, 19/5)] "red" 2 (8/10)
        ∈ draw_cable_stayed_bridge_elevation csBigParams ∧
    ¬((308 : ℚ) ≤ csBigParams.span_length) ∧
    ((addCableStayedBridgeToDxf 300 10 10).filter isVerticalLine).length = 1 ∧
    csBigParams.supports = 31 ∧ ¬((1 : ℤ) = 31) := by
refine ⟨?_, by norm_num [csBigParams], ?_, rfl, by norm_num⟩
· unfold draw_cable_stayed_bridge_elevation
  refine List.mem_append.2 (Or.inl (List.mem_append.2 (Or.inr ?_)))
  refine List.mem_flatMap.2 ⟨310, ?_, ?_⟩
  · unfold csTowerPositions
    refine List.mem_map.2 ⟨Int.ofNat 30, ?_, ?_⟩
    · unfold pyRange
      exact List.mem_map.2 ⟨30, List.mem_range.2 (by norm_num [csBigParams]), rfl⟩
    · norm_num [csSubSpanLength, numSpans, csBigParams]
  · refine List.mem_flatMap.2 ⟨1, ?_, ?_⟩
    · unfold pyRange2
      refine List.mem_map.2 ⟨0, List.mem_range.2 ?_, by norm_num⟩
      have h4 : csNumCables csBigParams = 4 := by
        norm_num [csNumCables, csSubSpanLength, numSpans, pyInt, csBigParams]
      rw [h4]
      norm_num
    · refine List.mem_append.2 (Or.inl ?_)
      rw [if_pos (by norm_num : (0 : ℚ) < 310)]
      have hdxl : csDeckXLeft csBigParams 310 1 = 308 := by
        norm_num [csDeckXLeft, csNumCables, csSubSpanLength, numSpans, pyInt, csBigParams]
      rw [if_pos (by rw [hdxl]; norm_num)]
      refine List.mem_singleton.2 ?_
      rw [hdxl]
      norm_num [csBigParams]
· norm_num +decide [addCableStayedBridgeToDxf, isVerticalLine, List.filter,
    List.flatMap, List.range_succ]

/-- C7 (amended): for `0 ≤ supportCount ≤ 29` (so the 30-sub-span cap is not
hit), the elevation view places exactly `supportCount` towers at positions
`(i+1) * subSpanLength`, each tower carries `max(4, int(subSpan/15))` stay
cables on each side (left and right cable per index, none suppressed by the
clamping guards), and every cable deck endpoint lies within
`[0, spanLength]`.  The DXF serializer deviates: it draws a single tower at
midspan regardless of `supportCount`. -/
theorem cable_stayed_towers_cables (p : BridgeParameters) (hv : p.valid)
    (h0 : 0 ≤ p.supports) (h29 : p.supports ≤ 29) :
    ((draw_cable_stayed_bridge_elevation p).filter (rectWithStyleW "supports" (8/10) 4)
      = (csTowerPositions p).map (fun tower_x =>
          Prim.rect (tower_x - 4 / 2) (-p.foundation_depth) 4
            (p.height + p.foundation_depth) "supports" (8/10))) ∧
    (csTowerPositions p).length = p.supports.toNat ∧
    csTowerPositions p = (pyRange p.supports).map (fun (i : ℤ) =>
      ((i : ℚ) + 1) * (p.span_length / ((min (max 1 (p.supports + 1)) 30 : ℤ) : ℚ))) ∧
    csNumCables p
      = max 4 (pyInt (p.span_length / ((min (max 1 (p.supports + 1)) 30 : ℤ) : ℚ) / 15)) ∧
    ((draw_cable_stayed_bridge_elevation p).filter (plotWithStyle "red" 2)
      = (csTowerPositions p).flatMap (fun tower_x =>
          (pyRange2 1 (csNumCables p + 1)).flatMap (fun (i : ℤ) =>
            [Prim.plot [(tower_x, p.height * (8/10)),
                        (csDeckXLeft p tower_x i, p.height * (3/10) + 8/10)] "red" 2 (8/10),
             Prim.plot [(tower_x, p.height * (8/10)),
                        (csDeckXRight p tower_x i, p.height * (3/10) + 8/10)] "red" 2 (8/10)]))) ∧
    (∀ tower_x ∈ csTowerPositions p, ∀ i : ℤ, 1 ≤ i → i ≤ csNumCables p →
       0 ≤ csDeckXLeft p tower_x i ∧ csDeckXLeft p tower_x i ≤ p.span_length ∧
       0 ≤ csDeckXRight p tower_x i ∧ csDeckXRight p tower_x i ≤ p.span_length) := by
refine ⟨?_, ?_, rfl, rfl, ?_, ?_⟩
· unfold draw_cable_stayed_bridge_elevation
  rw [List.filter_append, List.filter_append, List.filter_append]
  rw [filter_map_all _ _ _ (fun a _ => by simp [rectWithStyleW])]
  have hdeck : List.filter (rectWithStyleW "supports" (8/10) 4)
      [Prim.rect 0 (p.height * (3/10)) p.span_length (8/10) "deck" (7/10)] = [] := by
    simp [rectWithStyleW]
  rw [hdeck]
  have hcables : List.filter (rectWithStyleW "supports" (8/10) 4)
      ((csTowerPositions p).flatMap (fun tower_x =>
        (pyRange2 1 (csNumCables p + 1)).flatMap (fun (i : ℤ) =>
          (if 0 < tower_x then
             if 0 ≤ csDeckXLeft p tower_x i then
               [Prim.plot [(tower_x, p.height * (8/10)),
                           (csDeckXLeft p tower_x i, p.height * (3/10) + 8/10)] "red" 2 (8/10)]
             else []
           else [])
          ++ (if tower_x < p.span_length then
                if csDeckXRight p tower_x i ≤ p.span_length then
                  [Prim.plot [(tower_x, p.height * (8/10)),
                              (csDeckXRight p tower_x i, p.height * (3/10) + 8/10)] "red" 2 (8/10)]
                else []
              else [])))) = [] := by
    apply filter_eq_nil_of_all
    intro a ha
    obtain ⟨tx, -, ha⟩ := List.mem_flatMap.1 ha
    obtain ⟨i, -, ha⟩ := List.mem_flatMap.1 ha
    rcases List.mem_append.1 ha with h | h <;>
      · split_ifs at h with h1 h2
        · rcases List.mem_singleton.1 h with rfl
          rfl
        · cases h
        · cases h
  rw [hcables]
  rw [filter_map_nil _ _ _ (fun a _ => by simp [rectWithStyleW])]
  simp only [List.append_nil, List.nil_append]
· simp [csTowerPositions, pyRange, List.length_map, List.length_range]
· unfold draw_cable_stayed_bridge_elevation
  rw [List.filter_append, List.filter_append, List.filter_append]
  rw [filter_map_nil _ _ _ (fun a _ => rfl)]
  have hdeck : List.filter (plotWithStyle "red" 2)
      [Prim.rect 0 (p.height * (3/10)) p.span_length (8/10) "deck" (7/10)] = [] := rfl
  rw [hdeck]
  rw [filter_map_nil _ _ _ (fun a _ => rfl)]
  rw [filter_flatMap]
  simp only [List.nil_append, List.append_nil]
  refine flatMap_congr_mem (fun tx htx => ?_)
  rw [filter_flatMap]
  refine flatMap_congr_mem (fun i hi => ?_)
  obtain ⟨hi1, hi2⟩ := pyRange2_mem_bounds hi
  obtain ⟨g1, g3, g2, -, -, g4⟩ := cs_bounds p hv h0 h29 tx htx i hi1 (by omega)
  rw [if_pos g1, if_pos g2, if_pos g3, if_pos g4]
  simp [plotWithStyle]
· intro tower_x htx i h1 hn
  obtain ⟨-, -, b1, b2, b3, b4⟩ := cs_bounds p hv h0 h29 tower_x htx i h1 hn
  exact ⟨b1, b2, b3, b4⟩

/-- C7 witness: the amended theorem applied to the concrete Beam-scenario
parameter set (`supports = 1`). -/
theorem cable_stayed_towers_cables_witness :
    (csTowerPositions beamExampleParams).length = Int.toNat beamExampleParams.supports :=
(cable_stayed_towers_cables beamExampleParams
  (by norm_num [BridgeParameters.valid, beamExampleParams])
  (by norm_num [beamExampleParams])
  (by norm_num [beamExampleParams])).2.1

/-- C8: for every validated parameter set (positive span, width and height,
any integer `supports`) and every member of the closed `BridgeType` variant,
`generate_drawing` completes with a figure (no guarded division ever has a
zero divisor), and the `else`/`Unsupported bridge type` branch of the
dispatch is never taken. -/
theorem generate_drawing_total (sinPi cosPi : ℚ → ℚ) (bt : BridgeType)
    (p : BridgeParameters) (hv : p.valid) :
    (∃ fig, generate_drawing sinPi cosPi bt p = Except.ok fig) ∧
    generate_drawing sinPi cosPi bt p ≠ Except.error "Unsupported bridge type" := by
obtain ⟨fig, hfig⟩ := generate_drawing_ok sinPi cosPi bt p hv
exact ⟨⟨fig, hfig⟩, by rw [hfig]; exact fun hc => Except.noConfusion hc⟩

/-- C8 witness: the theorem applied at the Arch typology with the concrete
Beam-scenario parameters and constant trigonometric oracles. -/
theorem generate_drawing_total_witness :
    (∃ fig, generate_drawing (fun _ => 0) (fun _ => 0) BridgeType.arch beamExampleParams
        = Except.ok fig) ∧
    generate_drawing (fun _ => 0) (fun _ => 0) BridgeType.arch beamExampleParams
        ≠ Except.error "Unsupported bridge type" :=
generate_drawing_total (fun _ => 0) (fun _ => 0) BridgeType.arch beamExampleParams
  (by norm_num [BridgeParameters.valid, beamExampleParams])

/-- C9 counterexample: when `doc.saveas` fails, `save_as_dxf` re-raises with
the cause but performs NO cleanup (no temporary file, no delete), so the
truncated file written by the failed `saveas` remains on disk in a readable
state — neither absent nor atomically finalized. -/
theorem save_as_dxf_partial_file_counterexample :
    save_as_dxf BridgeType.beam beamExampleParams (some "disk full")
      = (FileState.truncated, Except.error "Failed to create DXF file: disk full") ∧
    FileState.truncated ≠ FileState.absent ∧
    FileState.truncated ≠ FileState.complete := by
refine ⟨rfl, by decide, by decide⟩

/-- C9 (amended): a CAD-export failure IS surfaced to the caller together
with the underlying cause (wrapped as
`RuntimeError("Failed to create DXF file: " + str(e))`), but the partial
output file is NOT removed and no atomic finalize is performed: on failure
the truncated file remains readable; on success the file is complete. -/
theorem save_as_dxf_failure_surfaced (bt : BridgeType) (p : BridgeParameters)
    (cause : String) :
    save_as_dxf bt p (some cause)
      = (FileState.truncated, Except.error ("Failed to create DXF file: " ++ cause)) ∧
    save_as_dxf bt p none = (FileState.complete, Except.ok ()) :=
⟨rfl, rfl⟩

/-- C10: calling `save_drawing` before `generate_drawing` (while
`self.figure` is still `None`) raises
`ValueError("No drawing generated. Call generate_drawing() first.")` and
writes no output file in any format; after a successful `generate_drawing`
the stored figure is non-`None`, so `save_drawing` never takes that error
branch and proceeds to the per-format save code. -/
theorem save_drawing_guard :
    (∀ (bt : BridgeType) (p : BridgeParameters) (base : String) (format : OutputFormat)
        (fault : Option String),
        save_drawing (GenState.init bt p) base format fault
          = ([], Except.error noFigureMsg)) ∧
    (∀ (sinPi cosPi : ℚ → ℚ) (st : GenState), st.params.valid →
        ∃ st2 fig, runGenerateDrawing sinPi cosPi st = Except.ok (st2, fig) ∧
          st2.figure = some fig ∧
          ∀ (base : String) (format : OutputFormat) (fault : Option String),
            save_drawing st2 base format fault
              = saveFigureOutputs fig st2.bridge_type st2.params base format fault) := by
constructor
· intro bt p base format fault
  rfl
· intro sinPi cosPi st hv
  obtain ⟨fig, hfig⟩ := generate_drawing_ok sinPi cosPi st.bridge_type st.params hv
  refine ⟨{ st with figure := some fig }, fig, ?_, rfl, fun base format fault => rfl⟩
  unfold runGenerateDrawing
  rw [hfig]
  rfl

/-- C10 witness: the theorem applied at the Beam typology with the concrete
Beam-scenario parameters. -/
theorem save_drawing_guard_witness :
    ∃ st2 fig,
      runGenerateDrawing (fun _ => 0) (fun _ => 0)
          (GenState.init BridgeType.beam beamExampleParams) = Except.ok (st2, fig) ∧
      st2.figure = some fig ∧
      ∀ (base : String) (format : OutputFormat) (fault : Option String),
        save_drawing st2 base format fault
          = saveFigureOutputs fig st2.bridge_type st2.params base format fault :=
save_drawing_guard.2 (fun _ => 0) (fun _ => 0)
  (GenState.init BridgeType.beam beamExampleParams)
  (by norm_num [BridgeParameters.valid, beamExampleParams, GenState.init])

end BridgeGAD
